import Mathlib

/-!
Verification of the Primalforger/cli repository against its specification.

This file contains a shallow embedding of the parts of the code the claims
are about:

* `src/diff_editor.py` — the search/replace patch engine
  (`apply_search_replace` and its four matching strategies), the edit-block
  parser (`parse_edit_blocks`), content cleaning (`clean_code_block`) and
  edit application (`apply_edits`);
* `src/builder.py` — path normalization and containment validation
  (`normalize_path`, `validate_filepath`), content sanitization
  (`clean_file_content`), the `<file>`-tag parser
  (`parse_files_from_response`) and the dependency-manifest safety filter
  inside `auto_fix`;
* `src/chat.py` — the error diagnoser `diagnose_test_error`;
* `src/project_context.py` — the project scanner (`scan_project`), the
  language analyzers, import resolution, cross-reference validation
  (`validate_cross_references`) and circular-import detection
  (`detect_circular_imports`).

Python strings are modelled as Lean `String`s; the handful of `re` calls in
the sources are modelled by a small backtracking regular-expression engine
(`RE` / `reM` below) whose semantics mirrors CPython's `re` module
(leftmost match, ordered alternation, greedy/lazy quantifiers,
backtracking), so that each Python pattern can be transliterated
node-by-node into an `RE` value.  Filesystem-dependent code takes the
filesystem as an explicit argument (an association list of paths, or
`isFile`/`isDir` oracles), and Python's `ast.parse` is an oracle argument
producing a small module AST.  Code that can raise is modelled with
`Except`.
-/

/-! ## Python string primitives -/

/-- Python's whitespace set used by `str.strip()` and friends:
space, tab, newline, carriage return, vertical tab, form feed. -/
def isPyWS (c : Char) : Bool :=
  c == ' ' || c == '\t' || c == '\n' || c == '\x0d' || c == '\x0b' || c == '\x0c'

/-- Python `str.lstrip()` (no arguments). -/
def pyLstrip (s : String) : String :=
  String.mk (s.data.dropWhile isPyWS)

/-- Python `str.rstrip()` (no arguments). -/
def pyRstrip (s : String) : String :=
  String.mk ((s.data.reverse.dropWhile isPyWS).reverse)

/-- Python `str.strip()` (no arguments). -/
def pyStrip (s : String) : String :=
  pyLstrip (pyRstrip s)

/-- Python `str.lstrip(chars)` for an explicit character set. -/
def pyLstripChars (s : String) (cs : List Char) : String :=
  String.mk (s.data.dropWhile (fun c => cs.contains c))

/-- Python `str.strip(chars)` for an explicit character set. -/
def pyStripChars (s : String) (cs : List Char) : String :=
  String.mk (((s.data.dropWhile (fun c => cs.contains c)).reverse.dropWhile
    (fun c => cs.contains c)).reverse)

/-- Helper for `splitNL`. -/
def splitNLAux : List Char → List Char → List String
  | [], acc => [String.mk acc.reverse]
  | c :: rest, acc =>
    if c == '\n' then String.mk acc.reverse :: splitNLAux rest []
    else splitNLAux rest (c :: acc)

/-- Python `s.split("\n")`. -/
def splitNL (s : String) : List String :=
  splitNLAux s.data []

/-- Python `"\n".join(xs)`. -/
def joinNL : List String → String
  | [] => ""
  | [x] => x
  | x :: rest => x ++ "\n" ++ joinNL rest

/-- Python `str.split()` (split on whitespace runs, no empty items). -/
def pySplitWSAux : List Char → List Char → List String
  | [], [] => []
  | [], acc => [String.mk acc.reverse]
  | c :: rest, acc =>
    if isPyWS c then
      match acc with
      | [] => pySplitWSAux rest []
      | _ => String.mk acc.reverse :: pySplitWSAux rest []
    else pySplitWSAux rest (c :: acc)

/-- Python `s.split()` with no separator argument. -/
def pySplitWS (s : String) : List String :=
  pySplitWSAux s.data []

/-- Python `p.startswith(q)`. -/
def strStartsWith (s p : String) : Bool :=
  p.data.isPrefixOf s.data

/-- Position of the first occurrence of `needle` in `hay` (Python `str.find`). -/
def subFindAux (needle : List Char) : List Char → Nat → Option Nat
  | [], i => if needle.isEmpty then some i else none
  | c :: rest, i =>
    if needle.isPrefixOf (c :: rest) then some i
    else subFindAux needle rest (i + 1)

/-- Python `hay.find(needle)` as an `Option`; `hay.index` is the `get`. -/
def subFind (hay needle : String) : Option Nat :=
  subFindAux needle.data hay.data 0

/-- Python `needle in hay`. -/
def containsSub (hay needle : String) : Bool :=
  (subFind hay needle).isSome

/-- Helper for `countSub`: non-overlapping left-to-right count. -/
def countSubAux (needle : List Char) : Nat → List Char → Nat
  | 0, _ => 0
  | _, [] => 0
  | f + 1, c :: rest =>
    if needle.isPrefixOf (c :: rest) then
      1 + countSubAux needle f (List.drop (needle.length - 1) rest)
    else countSubAux needle f rest

/-- Python `hay.count(needle)` for a non-empty needle. -/
def countSub (hay needle : String) : Nat :=
  countSubAux needle.data hay.data.length hay.data

/-- Replace the first occurrence of `needle` (Python `hay.replace(needle, repl, 1)`). -/
def replaceFirstAux (needle repl : List Char) : List Char → List Char
  | [] => []
  | c :: rest =>
    if needle.isPrefixOf (c :: rest) then repl ++ List.drop needle.length (c :: rest)
    else c :: replaceFirstAux needle repl rest

/-- Python `hay.replace(needle, repl, 1)`. -/
def strReplaceFirst (hay needle repl : String) : String :=
  String.mk (replaceFirstAux needle.data repl.data hay.data)

/-- Helper for `strReplaceAll`: non-overlapping left-to-right replacement. -/
def replaceAllAux (needle repl : List Char) : Nat → List Char → List Char
  | 0, h => h
  | _, [] => []
  | f + 1, c :: rest =>
    if needle.isPrefixOf (c :: rest) then
      repl ++ replaceAllAux needle repl f (List.drop needle.length (c :: rest))
    else c :: replaceAllAux needle repl f rest

/-- Python `hay.replace(needle, repl)` (all occurrences). -/
def strReplaceAll (hay needle repl : String) : String :=
  String.mk (replaceAllAux needle.data repl.data hay.data.length hay.data)

/-- Python `str.lower()` (inputs here are ASCII). -/
def strLower (s : String) : String :=
  String.mk (s.data.map Char.toLower)

/-- Number of occurrences of a character (Python `s.count(c)` for a 1-char needle). -/
def countChar (cs : List Char) (c : Char) : Nat :=
  (cs.filter (fun d => d == c)).length

/-- Leading whitespace of a line: Python `line[: len(line) - len(line.lstrip())]`. -/
def leadingWS (s : String) : String :=
  String.mk (s.data.takeWhile isPyWS)

/-! ## diff_editor.py — search/replace engine -/

/-- From `diff_editor.py`: strip trailing whitespace from each line. -/
def _normalize_trailing_whitespace (text : String) : String :=
  joinNL ((splitNL text).map pyRstrip)

/-- From `diff_editor.py`: strip all leading/trailing whitespace from each line. -/
def _strip_all_whitespace (text : String) : String :=
  joinNL ((splitNL (pyStrip text)).map pyStrip)

/-- First indentation found in a block: the leading whitespace of the first
line whose `strip()` is non-empty (the `for … break` loops in strategy 3). -/
def firstIndent : List String → String
  | [] => ""
  | l :: rest => if pyStrip l != "" then leadingWS l else firstIndent rest

/-- Strategy 2 of `apply_search_replace`: trailing-whitespace-normalized match. -/
def sr_step2 (content search replace : String) : Option String :=
  let content_norm := _normalize_trailing_whitespace content
  let search_norm := _normalize_trailing_whitespace search
  match subFind content_norm search_norm with
  | none => none
  | some idx =>
    let start_line := countChar (content_norm.data.take idx) '\n'
    let search_line_count := countChar search_norm.data '\n' + 1
    let content_lines := splitNL content
    let replace_lines := splitNL replace
    some (joinNL (content_lines.take start_line ++ replace_lines
      ++ content_lines.drop (start_line + search_line_count)))

/-- Re-indent the replace block to the original indentation (strategy 3 body). -/
def sr_reindent (replace original_indent replace_indent : String) : String :=
  if replace_indent != original_indent then
    joinNL ((splitNL replace).map (fun line =>
      if pyStrip line != "" then
        original_indent ++ String.mk (line.data.drop replace_indent.data.length)
      else line))
  else replace

/-- Splice the (possibly re-indented) replace block over window `i..i+cnt`. -/
def sr_step3_apply (content_lines : List String) (replace : String)
    (cnt i : Nat) : String :=
  let matched := (content_lines.drop i).take cnt
  let original_indent := firstIndent matched
  let replace_indent := firstIndent (splitNL replace)
  let replace2 := sr_reindent replace original_indent replace_indent
  joinNL (content_lines.take i ++ splitNL replace2 ++ content_lines.drop (i + cnt))

/-- Sliding-window loop of strategy 3 (`for i in range(len(content_lines) - cnt + 1)`). -/
def sr_step3_go (content_lines : List String) (replace search_stripped : String)
    (cnt : Nat) : List String → Nat → Option String
  | suffix, i =>
    if suffix.length < cnt then none
    else
      let window := joinNL ((suffix.take cnt).map pyStrip)
      if window == search_stripped then
        some (sr_step3_apply content_lines replace cnt i)
      else
        match suffix with
        | [] => none
        | _ :: rest => sr_step3_go content_lines replace search_stripped cnt rest (i + 1)

/-- Strategy 3 of `apply_search_replace`: all-whitespace-stripped window match. -/
def sr_step3 (content search replace : String) : Option String :=
  let search_stripped := _strip_all_whitespace search
  let content_lines := splitNL content
  let search_line_count := (splitNL (pyStrip search)).length
  sr_step3_go content_lines replace search_stripped search_line_count content_lines 0

/-- From `diff_editor.py`: verify an anchor-based match by checking middle lines. -/
def _verify_anchor_match (content_slice search_lines : List String) : Bool :=
  if search_lines.length ≤ 2 then true
  else
    let total := search_lines.length - 2
    let middle := (List.range (search_lines.length - 1)).drop 1
    let nMatches := (middle.filter (fun i =>
      if i < content_slice.length then
        let ss := pyStrip (search_lines.getD i "")
        let cc := pyStrip (content_slice.getD i "")
        ss == cc || containsSub cc ss || containsSub ss cc
      else false)).length
    if total == 0 then true
    else 2 * nMatches ≥ total

/-- Anchor scan of strategy 4 (`for i in range(len(content_lines))`). -/
def sr_step4_go (content_lines search_lines_list : List String)
    (replace : String) (cnt : Nat) (first last : String) :
    List String → Nat → Option String
  | [], _ => none
  | line :: rest, i =>
    if pyStrip line == first then
      let e := i + cnt
      if e ≤ content_lines.length then
        if pyStrip ((content_lines.drop (e - 1)).headD "") == last then
          if _verify_anchor_match ((content_lines.drop i).take cnt) search_lines_list then
            some (joinNL (content_lines.take i ++ splitNL replace
              ++ content_lines.drop e))
          else sr_step4_go content_lines search_lines_list replace cnt first last rest (i + 1)
        else sr_step4_go content_lines search_lines_list replace cnt first last rest (i + 1)
      else sr_step4_go content_lines search_lines_list replace cnt first last rest (i + 1)
    else sr_step4_go content_lines search_lines_list replace cnt first last rest (i + 1)

/-- Strategy 4 of `apply_search_replace`: first/last-line anchor match.
`search_line_count` is the variable computed in strategy 3's scope and
reused here by the source. -/
def sr_step4 (content search replace : String) : Option String :=
  let content_lines := splitNL content
  let search_line_count := (splitNL (pyStrip search)).length
  let search_lines_list := splitNL (pyStrip search)
  if search_lines_list.length ≥ 3 then
    let first := pyStrip (search_lines_list.headD "")
    let last := pyStrip (search_lines_list.getLastD "")
    if first == "" || last == "" then none
    else sr_step4_go content_lines search_lines_list replace
      search_line_count first last content_lines 0
  else none

/-- From `diff_editor.py`: apply a search/replace block with fuzzy matching
fallbacks.  Strategy 1 (exact match) requires a unique occurrence and
otherwise falls through to strategies 2–4. -/
def apply_search_replace (content search replace : String) : Option String :=
  if content == "" || search == "" then none
  else if containsSub content search && countSub content search == 1 then
    some (strReplaceFirst content search replace)
  else
    match sr_step2 content search replace with
    | some r => some r
    | none =>
      match sr_step3 content search replace with
      | some r => some r
      | none => sr_step4 content search replace

/-- A line whose stripped form starts with a markdown fence. -/
def fenceLine (l : String) : Bool :=
  strStartsWith (pyStrip l) "```"

/-- From `diff_editor.py`: strip markdown fences and leading blank lines. -/
def clean_code_block (text : String) : String :=
  if text == "" then text
  else
    let lines0 := (splitNL text).dropWhile (fun l => pyStrip l == "")
    let lines1 := if fenceLine (lines0.headD "") then lines0.drop 1 else lines0
    let lines2 := (lines1.reverse.dropWhile fenceLine).reverse
    joinNL lines2

/-! ## A small backtracking regex engine

The Python sources use `re.search`, `re.finditer`, `re.findall` and
`re.sub`.  Each pattern below is transliterated node-by-node into the
`RE` syntax; the matcher `reM` implements the standard backtracking
semantics of CPython's `re` module: ordered alternation, greedy (`*`,
`+`, `?`) and lazy (`*?`, `+?`, `??`) quantifiers, capture groups,
zero-width lookahead, `^` under `re.MULTILINE` and `\Z`.  The `DOTALL`
and `IGNORECASE` flags are expressed in the character predicates.
Recursion is bounded by an explicit fuel, large enough for every input
in this development; fuel exhaustion behaves as a failed match. -/

/-- Regular expression syntax, mirroring the constructs used by the sources. -/
inductive RE where
  | eps : RE
  | chr (p : Char → Bool) : RE
  | seq (a b : RE) : RE
  | alt (a b : RE) : RE
  | star (lazy : Bool) (a : RE) : RE
  | grp (n : Nat) (a : RE) : RE
  | look (a : RE) : RE
  | bol : RE
  | eos : RE

/-- Captures: (group index, start, end); the most recent write comes first. -/
abbrev Caps := List (Nat × Nat × Nat)

/-- Backtracking matcher in continuation-passing style.  `s` is the
remaining input, `i` the absolute position, `prev` the previously consumed
character (for `^` in MULTILINE mode), `caps` the captures so far.  The
continuation receives the updated state; the final continuation returns
the match end and captures. -/
def reM (fuel : Nat) (re : RE) (s : List Char) (i : Nat) (prev : Option Char)
    (caps : Caps)
    (k : List Char → Nat → Option Char → Caps → Option (Nat × Caps)) :
    Option (Nat × Caps) :=
  match fuel with
  | 0 => none
  | f + 1 =>
    match re with
    | .eps => k s i prev caps
    | .bol =>
      match prev with
      | none => k s i prev caps
      | some c => if c == '\n' then k s i prev caps else none
    | .eos =>
      match s with
      | [] => k s i prev caps
      | _ :: _ => none
    | .chr p =>
      match s with
      | [] => none
      | c :: rest => if p c then k rest (i + 1) (some c) caps else none
    | .seq a b =>
      reM f a s i prev caps (fun s2 i2 p2 c2 => reM f b s2 i2 p2 c2 k)
    | .alt a b =>
      match reM f a s i prev caps k with
      | some r => some r
      | none => reM f b s i prev caps k
    | .star lazy a =>
      if lazy then
        match k s i prev caps with
        | some r => some r
        | none =>
          reM f a s i prev caps (fun s2 i2 p2 c2 =>
            if i2 == i then none else reM f (.star lazy a) s2 i2 p2 c2 k)
      else
        match reM f a s i prev caps (fun s2 i2 p2 c2 =>
            if i2 == i then none else reM f (.star lazy a) s2 i2 p2 c2 k) with
        | some r => some r
        | none => k s i prev caps
    | .grp n a =>
      reM f a s i prev caps (fun s2 i2 p2 c2 => k s2 i2 p2 ((n, i, i2) :: c2))
    | .look a =>
      match reM f a s i prev caps (fun _ _ _ c2 => some (i, c2)) with
      | some (_, c2) => k s i prev c2
      | none => none

/-- A regex match: span `[mstart, mstop)` plus captures. -/
structure RMatch where
  mstart : Nat
  mstop : Nat
  caps : Caps
  deriving Repr, DecidableEq

/-- Fuel used for a subject of length `n`; generous for every pattern here. -/
def reFuel (n : Nat) : Nat :=
  (n + 16) * 4000

/-- Leftmost-match search: try the pattern at every start position. -/
def reSearchAux (fuel : Nat) (re : RE) : List Char → Nat → Option Char → Option RMatch
  | s, i, prev =>
    match reM fuel re s i prev [] (fun _ j _ caps => some (j, caps)) with
    | some (j, caps) => some ⟨i, j, caps⟩
    | none =>
      match s with
      | [] => none
      | c :: rest => reSearchAux fuel re rest (i + 1) (some c)

/-- Python `re.search(pattern, s)`. -/
def reSearch (re : RE) (s : String) : Option RMatch :=
  reSearchAux (reFuel s.data.length) re s.data 0 none

/-- Substring of the subject by absolute positions. -/
def strSlice (s : List Char) (a b : Nat) : String :=
  String.mk ((s.drop a).take (b - a))

/-- Python `m.group(n)`: `none` when the group did not participate. -/
def mGroup (subject : List Char) (m : RMatch) (n : Nat) : Option String :=
  match m.caps.find? (fun t => t.1 == n) with
  | some (_, a, b) => some (strSlice subject a b)
  | none => none

/-- Python `m.group(n) or ""`. -/
def mGroupD (subject : List Char) (m : RMatch) (n : Nat) : String :=
  (mGroup subject m n).getD ""

/-- Successive non-overlapping matches (Python `re.finditer`); an empty
match advances one character, as in CPython. -/
def reFindIterAux (fuel : Nat) (re : RE) : Nat → List Char → Nat → Option Char → List RMatch
  | 0, _, _, _ => []
  | g + 1, s, i, prev =>
    match reSearchAux fuel re s i prev with
    | none => []
    | some m =>
      let rel := m.mstop - i
      let s2 := s.drop rel
      let prev2 := if rel == 0 then prev else some (s.getD (rel - 1) ' ')
      if m.mstop == m.mstart then
        match s2 with
        | [] => [m]
        | c :: r2 => m :: reFindIterAux fuel re g r2 (m.mstop + 1) (some c)
      else m :: reFindIterAux fuel re g s2 m.mstop prev2

/-- Python `re.finditer(pattern, s)` as a list of matches. -/
def reFindIter (re : RE) (s : String) : List RMatch :=
  reFindIterAux (reFuel s.data.length) re (s.data.length + 2) s.data 0 none

/-- Remove the given (sorted, disjoint) spans from a character list. -/
def removeSpans (cs : List Char) (spans : List (Nat × Nat)) : List Char :=
  ((cs.enum.filter (fun p =>
    !(spans.any (fun ab => ab.1 ≤ p.1 && p.1 < ab.2)))).map (fun p => p.2))

/-- Python `re.sub(pattern, "", s)`: delete every match. -/
def reSubDelete (re : RE) (s : String) : String :=
  String.mk (removeSpans s.data ((reFindIter re s).map (fun m => (m.mstart, m.mstop))))

/-! ### Pattern-building helpers (the usual regex atoms) -/

/-- Literal character. -/
def RE.lit (c : Char) : RE := .chr (fun d => d == c)

/-- Case-insensitive literal character (`re.IGNORECASE`). -/
def RE.litCI (c : Char) : RE := .chr (fun d => d.toLower == c.toLower)

/-- Literal string. -/
def RE.strLit (s : String) : RE :=
  s.data.foldr (fun c acc => .seq (RE.lit c) acc) .eps

/-- Case-insensitive literal string. -/
def RE.strCI (s : String) : RE :=
  s.data.foldr (fun c acc => .seq (RE.litCI c) acc) .eps

/-- Sequence of several patterns. -/
def RE.cat (rs : List RE) : RE :=
  rs.foldr .seq .eps

/-- Greedy `?`. -/
def RE.q01 (a : RE) : RE := .alt a .eps

/-- Greedy `+`. -/
def RE.plus (a : RE) : RE := .seq a (.star false a)

/-- Lazy `+?`. -/
def RE.plusL (a : RE) : RE := .seq a (.star true a)

/-- Python `\w` (ASCII view). -/
def isWordChar (c : Char) : Bool :=
  c.isAlphanum || c == '_'

/-- Python `\d`. -/
def isDigitChar (c : Char) : Bool := c.isDigit

/-- Python `\S`. -/
def isNonSpace (c : Char) : Bool := !isPyWS c

/-- Python `.` without `re.DOTALL`. -/
def notNL (c : Char) : Bool := c != '\n'

/-- Python `.` with `re.DOTALL`. -/
def anyChar (_ : Char) : Bool := true

/-- A single or double quote (`["\']`). -/
def isQuote (c : Char) : Bool := c == '"' || c == '\x27'

/-- Negation of `isQuote` (the class `[^"\']`). -/
def notQuote (c : Char) : Bool := !isQuote c

/-! ## diff_editor.py — edit block parsing -/

/-- From `diff_editor.py`: normalize a file path from edit blocks
(backslashes to slashes, leading `./` removed, double slashes collapsed,
surrounding whitespace stripped). -/
def collapseDoubleSlash : Nat → String → String
  | 0, s => s
  | f + 1, s =>
    if containsSub s "//" then collapseDoubleSlash f (strReplaceAll s "//" "/")
    else s

/-- From `diff_editor.py`: `_normalize_edit_path`. -/
def _normalize_edit_path (filepath : String) : String :=
  if filepath == "" then filepath
  else
    let fp := strReplaceAll filepath "\\" "/"
    let fp := if strStartsWith fp "./" then String.mk (fp.data.drop 2) else fp
    let fp := collapseDoubleSlash fp.data.length fp
    pyStrip fp

/-- A parsed edit operation (the dicts appended by `parse_edit_blocks`):
`type` is `"search_replace"` or `"full_replace"`. -/
structure EditOp where
  type : String
  path : String := ""
  search : String := ""
  replace : String := ""
  content : String := ""
  deriving Repr, DecidableEq

/-- Pattern `<edit\s+path=["\']([^"\']+)["\']>\s*(.*?)\s*</edit>` (DOTALL). -/
def edit_pattern : RE :=
  RE.cat [RE.strLit "<edit", RE.plus (.chr isPyWS), RE.strLit "path=",
    .chr isQuote, .grp 1 (RE.plus (.chr notQuote)), .chr isQuote, RE.lit '>',
    .star false (.chr isPyWS), .grp 2 (.star true (.chr anyChar)),
    .star false (.chr isPyWS), RE.strLit "</edit>"]

/-- Pattern `<<<<<<< SEARCH\n(.*?)\n=======\n(.*?)\n>>>>>>> REPLACE` (DOTALL),
used identically in all three places of `parse_edit_blocks`. -/
def sr_pattern : RE :=
  RE.cat [RE.strLit "<<<<<<< SEARCH\n", .grp 1 (.star true (.chr anyChar)),
    RE.strLit "\n=======\n", .grp 2 (.star true (.chr anyChar)),
    RE.strLit "\n>>>>>>> REPLACE"]

/-- Pattern `<edit\s+file=["\']?([^"\'>\s]+)["\']?>\s*(.*?)(?=<edit\s|\Z)`
(DOTALL), the unclosed-edit fallback. -/
def unclosed_edit_pattern : RE :=
  RE.cat [RE.strLit "<edit", RE.plus (.chr isPyWS), RE.strLit "file=",
    RE.q01 (.chr isQuote),
    .grp 1 (RE.plus (.chr (fun c => !(isQuote c || c == '>' || isPyWS c)))),
    RE.q01 (.chr isQuote), RE.lit '>', .star false (.chr isPyWS),
    .grp 2 (.star true (.chr anyChar)),
    .alt (.look (RE.cat [RE.strLit "<edit", .chr isPyWS])) .eos]

/-- Pattern `\n?(.*?)` (DOTALL) — the `file_pattern` of
`parse_edit_blocks` as it stands in the source (the `<file …>` markup is
absent from the pattern).  Its group 1 is a lazy star and therefore always
captures the empty string. -/
def diff_file_pattern : RE :=
  RE.cat [RE.q01 (RE.lit '\n'), .grp 1 (.star true (.chr anyChar))]

/-- Python `re.findall(sr_pattern, block)`: the (search, replace) pairs. -/
def parse_srs (block : String) : List (String × String) :=
  (reFindIter sr_pattern block).map
    (fun m => (mGroupD block.data m 1, mGroupD block.data m 2))

/-- The inner loop over SEARCH/REPLACE pairs shared by the three formats:
clean both sides, skip pairs with an empty search text. -/
def fmt_sr_ops (srs : List (String × String)) (filepath : String) : List EditOp :=
  srs.filterMap (fun sr =>
    let search := clean_code_block sr.1
    let replace := clean_code_block sr.2
    if pyStrip search == "" then none
    else some { type := "search_replace", path := filepath,
                search := search, replace := replace })

/-- Format 1 of `parse_edit_blocks`: closed `<edit path="…">` blocks.
Returns the edits and the `found_paths` set (as a list used only through
membership). -/
def fmt1_go (response : String) : List RMatch → List EditOp × List String
  | [] => ([], [])
  | m :: rest =>
    let filepath := _normalize_edit_path (mGroupD response.data m 1)
    let (es, ps) := fmt1_go response rest
    if filepath == "" then (es, ps)
    else
      let block := mGroupD response.data m 2
      let srs := parse_srs block
      if srs.isEmpty then
        let content := clean_code_block block
        if pyStrip content != "" then
          ({ type := "full_replace", path := filepath, content := content } :: es,
            filepath :: ps)
        else (es, ps)
      else (fmt_sr_ops srs filepath ++ es, filepath :: ps)

/-- Format 2 of `parse_edit_blocks`: unclosed `<edit file=…>` fallback,
run only when format 1 produced nothing.  Threads `found_paths`. -/
def fmt2_go (response : String) : List RMatch → List String → List EditOp × List String
  | [], found => ([], found)
  | m :: rest, found =>
    let filepath := _normalize_edit_path (mGroupD response.data m 1)
    if filepath == "" || found.contains filepath then fmt2_go response rest found
    else
      let srs := parse_srs (mGroupD response.data m 2)
      let ops := fmt_sr_ops srs filepath
      if ops.isEmpty then fmt2_go response rest found
      else
        let (es, found2) := fmt2_go response rest (filepath :: found)
        (ops ++ es, found2)

/-- Format 3 of `parse_edit_blocks`, the `<file>` handling.  The pattern in
the source is `\n?(.*?)`, whose group 1 always captures the empty string
(a lazy star), so `_normalize_edit_path` returns `""` and every iteration
takes the `continue` branch; the rest of the loop body (which reads the
non-existent group 2 and would raise `IndexError`) is unreachable and is
modelled by the empty result. -/
def fmt3_go (response : String) : List RMatch → List String → List EditOp
  | [], _ => []
  | m :: rest, found =>
    let filepath := _normalize_edit_path (mGroupD response.data m 1)
    if filepath == "" || found.contains filepath then fmt3_go response rest found
    else []

/-- From `diff_editor.py`: parse edit instructions from a model response. -/
def parse_edit_blocks (response : String) : List EditOp :=
  if response == "" then []
  else
    let p1 := fmt1_go response (reFindIter edit_pattern response)
    let edits1 := p1.1
    let p2 :=
      if edits1.isEmpty then
        fmt2_go response (reFindIter unclosed_edit_pattern response) p1.2
      else ([], p1.2)
    let edits3 := fmt3_go response (reFindIter diff_file_pattern response) p2.2
    edits1 ++ p2.1 ++ edits3

/-! ## builder.py — path utilities -/

/-- Helper for `splitCh`. -/
def splitChAux (sep : Char) : List Char → List Char → List String
  | [], acc => [String.mk acc.reverse]
  | c :: rest, acc =>
    if c == sep then String.mk acc.reverse :: splitChAux sep rest []
    else splitChAux sep rest (c :: acc)

/-- Python `s.split(sep)` for a one-character separator. -/
def splitCh (sep : Char) (s : String) : List String :=
  splitChAux sep s.data []

/-- Python `s.endswith(p)`. -/
def strEndsWith (s p : String) : Bool :=
  p.data.isSuffixOf s.data

/-- From `builder.py`: `normalize_path` (backslashes to slashes, leading
`./` removed, double slashes collapsed, trailing slashes stripped). -/
def normalize_path (filepath : String) : String :=
  if filepath == "" then filepath
  else
    let fp := strReplaceAll filepath "\\" "/"
    let fp := if strStartsWith fp "./" then String.mk (fp.data.drop 2) else fp
    let fp := collapseDoubleSlash fp.data.length fp
    String.mk ((fp.data.reverse.dropWhile (fun c => c == '/')).reverse)

/-- Lexical form of `Path.resolve()`: `..` pops a segment, `.` and empty
segments vanish.  Directories are modelled as segment lists. -/
def resolve_segs (segs : List String) : List String :=
  segs.foldl (fun acc s =>
    if s == ".." then acc.dropLast
    else if s == "." || s == "" then acc
    else acc ++ [s]) []

/-- `base_dir / filepath` of `pathlib`: an absolute right operand replaces
the base. -/
def joinPath (base_dir : List String) (filepath : String) : List String :=
  if strStartsWith filepath "/" then splitCh '/' filepath
  else base_dir ++ splitCh '/' filepath

/-- From `builder.py`: `validate_filepath` — reject empty paths and paths
whose resolved form is not a descendant of the resolved base directory
(`full_path.relative_to(base_dir.resolve())` raising `ValueError`). -/
def validate_filepath (filepath : String) (base_dir : List String) : Bool :=
  if filepath == "" || pyStrip filepath == "" then false
  else (resolve_segs base_dir).isPrefixOf (resolve_segs (joinPath base_dir filepath))

/-! ## builder.py — content cleaning -/

/-- From `builder.py`: extensions treated as code (declared alongside
`clean_file_content`; the function itself branches only on the markdown
set). -/
def _CODE_EXTENSIONS : List String :=
  [".py", ".js", ".ts", ".jsx", ".tsx", ".java", ".go", ".rs",
   ".rb", ".php", ".c", ".cpp", ".h", ".hpp", ".cs", ".swift",
   ".kt", ".scala", ".r", ".sql", ".sh", ".bash", ".ps1",
   ".yaml", ".yml", ".toml", ".json", ".xml", ".html", ".htm",
   ".css", ".scss", ".sass", ".less", ".env", ".cfg", ".ini",
   ".txt", ".csv", ".dockerfile"]

/-- From `builder.py`: markdown-family extensions. -/
def _MARKDOWN_EXTENSIONS : List String := [".md", ".mdx", ".markdown", ".rst"]

/-- Index of the last occurrence of a character. -/
def rfindChar (cs : List Char) (c : Char) : Option Nat :=
  match subFindAux [c] cs.reverse 0 with
  | none => none
  | some j => some (cs.length - 1 - j)

/-- The final path segment (`Path(filepath).name`). -/
def path_name (filepath : String) : String :=
  (splitCh '/' filepath).getLastD ""

/-- Python `Path(filepath).suffix`: the extension from the last dot of the
name, empty when the dot is the first or last character of the name. -/
def path_suffix (filepath : String) : String :=
  let name := path_name filepath
  match rfindChar name.data '.' with
  | none => ""
  | some i =>
    if 0 < i && i + 1 < name.data.length then String.mk (name.data.drop i)
    else ""

/-- From `builder.py`: `clean_file_content`.  The fence-stripping loop is
written `while lines and lines.strip().startswith("```")` in the source —
`lines` is a list, so entering the branch raises `AttributeError`; the
error outcome is modelled by `Except.error ()`. -/
def clean_file_content (content filepath : String) : Except Unit String :=
  if content == "" then .ok content
  else
    let ext := strLower (path_suffix filepath)
    if _MARKDOWN_EXTENSIONS.contains ext then
      let c := pyLstripChars content ['\uFEFF']
      let c := pyStripChars c ['\n']
      .ok (if c != "" && !strEndsWith c "\n" then c ++ "\n" else c)
    else
      let lines := (splitNL content).dropWhile (fun l => pyStrip l == "")
      if !lines.isEmpty && fenceLine (lines.headD "") then
        .error ()
      else if lines.isEmpty then .ok ""
      else
        let c := pyLstripChars (joinNL lines) ['\uFEFF']
        let c := pyStripChars c ['\n']
        .ok (if c != "" && !strEndsWith c "\n" then c ++ "\n" else c)

/-! ## builder.py — file parsing -/

/-- Characters of the path token class `[\w./\\-]`. -/
def isPathTokChar (c : Char) : Bool :=
  isWordChar c || c == '.' || c == '/' || c == '\\' || c == '-'

/-- Pattern `<file\s+path=["\']([^"\']+)["\']>\n?(.*?)</file>`
(DOTALL, IGNORECASE). -/
def builder_file_pattern : RE :=
  RE.cat [RE.strCI "<file", RE.plus (.chr isPyWS), RE.strCI "path=",
    .chr isQuote, .grp 1 (RE.plus (.chr notQuote)), .chr isQuote, RE.lit '>',
    RE.q01 (RE.lit '\n'), .grp 2 (.star true (.chr anyChar)),
    RE.strCI "</file>"]

/-- Pattern `(?:\*\*|###?\s*)(`?[\w./\\-]+\.\w+`?)(?:\*\*)?\s*\n```\w*\n(.*?)```
(DOTALL): markdown-heading file blocks. -/
def markdown_file_pattern : RE :=
  RE.cat [
    .alt (RE.strLit "**")
      (RE.cat [RE.strLit "##", RE.q01 (RE.lit '#'), .star false (.chr isPyWS)]),
    .grp 1 (RE.cat [RE.q01 (RE.lit '\x60'), RE.plus (.chr isPathTokChar),
      RE.lit '.', RE.plus (.chr isWordChar), RE.q01 (RE.lit '\x60')]),
    RE.q01 (RE.strLit "**"),
    .star false (.chr isPyWS), RE.lit '\n',
    RE.strLit "```", .star false (.chr isWordChar), RE.lit '\n',
    .grp 2 (.star true (.chr anyChar)), RE.strLit "```"]

/-- Pattern ```` ```\w*\s*\n\s*#\s*([\w./\\-]+\.\w+)\s*\n(.*?)``` ````
(DOTALL): a comment-labelled code fence. -/
def comment_file_pattern : RE :=
  RE.cat [RE.strLit "```", .star false (.chr isWordChar),
    .star false (.chr isPyWS), RE.lit '\n', .star false (.chr isPyWS),
    RE.lit '#', .star false (.chr isPyWS),
    .grp 1 (RE.cat [RE.plus (.chr isPathTokChar), RE.lit '.',
      RE.plus (.chr isWordChar)]),
    .star false (.chr isPyWS), RE.lit '\n',
    .grp 2 (.star true (.chr anyChar)), RE.strLit "```"]

/-- Pattern `(?:File|Filename|Path):\s*`?([\w./\\-]+\.\w+)`?\s*\n```\w*\n(.*?)```
(DOTALL, IGNORECASE): a labelled code fence. -/
def labeled_file_pattern : RE :=
  RE.cat [
    .alt (RE.strCI "File") (.alt (RE.strCI "Filename") (RE.strCI "Path")),
    RE.lit ':', .star false (.chr isPyWS), RE.q01 (RE.lit '\x60'),
    .grp 1 (RE.cat [RE.plus (.chr isPathTokChar), RE.lit '.',
      RE.plus (.chr isWordChar)]),
    RE.q01 (RE.lit '\x60'), .star false (.chr isPyWS), RE.lit '\n',
    RE.strLit "```", .star false (.chr isWordChar), RE.lit '\n',
    .grp 2 (.star true (.chr anyChar)), RE.strLit "```"]

/-- One of the four extraction loops of `parse_files_from_response`:
`pathOf` computes the candidate path from group 1, `extra` is the loop's
additional path condition; `found` is the `found_paths` set.  Each new
file's content passes through `clean_file_content`, whose error aborts
(propagating the exception as in Python). -/
def pfr_loop (response : String) (pathOf : String → String) (extra : String → Bool) :
    List RMatch → List (String × String) → List String →
    Except Unit (List (String × String) × List String)
  | [], files, found => .ok (files, found)
  | m :: rest, files, found =>
    let path := pathOf (mGroupD response.data m 1)
    if path != "" && !found.contains path && extra path then
      match clean_file_content (mGroupD response.data m 2) path with
      | .error e => .error e
      | .ok content =>
        pfr_loop response pathOf extra rest (files ++ [(path, content)]) (path :: found)
    else pfr_loop response pathOf extra rest files found

/-- From `builder.py`: `parse_files_from_response` — extract `(path,
content)` pairs from the four recognized formats.  The final
fences-without-paths fallback only prints a warning and does not change
the result. -/
def parse_files_from_response (response : String) :
    Except Unit (List (String × String)) := do
  if response == "" then return []
  let (fs1, found1) ← pfr_loop response (fun g => normalize_path (pyStrip g))
    (fun _ => true) (reFindIter builder_file_pattern response) [] []
  let (fs2, found2) ← pfr_loop response
    (fun g => normalize_path (pyStripChars (pyStrip g) ['\x60']))
    (fun p => containsSub p "/" || containsSub p ".")
    (reFindIter markdown_file_pattern response) fs1 found1
  let (fs3, found3) ← pfr_loop response (fun g => normalize_path (pyStrip g))
    (fun _ => true) (reFindIter comment_file_pattern response) fs2 found2
  let (fs4, _) ← pfr_loop response (fun g => normalize_path (pyStrip g))
    (fun _ => true) (reFindIter labeled_file_pattern response) fs3 found3
  return fs4

/-! ## builder.py — auto_fix dependency-manifest safety check -/

/-- Pattern `<(?:file|edit)\s+path=["\']requirements\.txt["\']>` (IGNORECASE). -/
def req_tag_search_pattern : RE :=
  RE.cat [RE.lit '<', .alt (RE.strCI "file") (RE.strCI "edit"),
    RE.plus (.chr isPyWS), RE.strCI "path=", .chr isQuote,
    RE.strCI "requirements.txt", .chr isQuote, RE.lit '>']

/-- Pattern `<file\s+path=["\']requirements\.txt["\']>.*?</file>`
(DOTALL, IGNORECASE). -/
def req_file_strip_pattern : RE :=
  RE.cat [RE.strCI "<file", RE.plus (.chr isPyWS), RE.strCI "path=",
    .chr isQuote, RE.strCI "requirements.txt", .chr isQuote, RE.lit '>',
    .star true (.chr anyChar), RE.strCI "</file>"]

/-- Pattern `<edit\s+path=["\']requirements\.txt["\']>.*?</edit>`
(DOTALL, IGNORECASE). -/
def req_edit_strip_pattern : RE :=
  RE.cat [RE.strCI "<edit", RE.plus (.chr isPyWS), RE.strCI "path=",
    .chr isQuote, RE.strCI "requirements.txt", .chr isQuote, RE.lit '>',
    .star true (.chr anyChar), RE.strCI "</edit>"]

/-- From `builder.py` (`auto_fix`, the block commented "Safety check:
block requirements.txt changes for local import errors"): when the
diagnosis marked a local-import issue, and the response mentions
`requirements.txt` *and* contains `<file` (lower-cased), and the tag
search finds a requirements tag, the `<file>`/`<edit>` blocks targeting
`requirements.txt` are deleted from the response; otherwise the response
passes through unchanged. -/
def auto_fix_manifest_filter (is_local_import : Bool) (full_response : String) : String :=
  if is_local_import then
    if containsSub full_response "requirements.txt"
        && containsSub (strLower full_response) "<file" then
      match reSearch req_tag_search_pattern full_response with
      | some _ =>
        reSubDelete req_edit_strip_pattern
          (reSubDelete req_file_strip_pattern full_response)
      | none => full_response
    else full_response
  else full_response

/-! ## diff_editor.py — edit application

The filesystem is modelled as an association list from *resolved* absolute
paths (segment lists) to file contents; reads and writes address
`base_dir / filepath` after resolution, which is what the OS does with
`..` segments in `Path.exists`/`Path.write_text`.  `_write_file` is
modelled as always succeeding (its `OSError` branch merely reports
failure).  The interactive confirmation prompt is modelled by an
`accepts` oracle consulted when `auto_apply` is false. -/

/-- Abstract filesystem: resolved path segments ↦ content. -/
abbrev FS := List (List String × String)

/-- Lookup in the filesystem. -/
def fsGet (fs : FS) (p : List String) : Option String :=
  (fs.find? (fun e => e.1 == p)).map (fun e => e.2)

/-- Create or overwrite a file. -/
def fsSet (fs : FS) (p : List String) (v : String) : FS :=
  if (fs.find? (fun e => e.1 == p)).isSome then
    fs.map (fun e => if e.1 == p then (p, v) else e)
  else fs ++ [(p, v)]

/-- Lookup in a string-keyed dict. -/
def assocGet (m : List (String × String)) (k : String) : Option String :=
  (m.find? (fun e => e.1 == k)).map (fun e => e.2)

/-- Insert or overwrite in a string-keyed dict. -/
def assocSet (m : List (String × String)) (k v : String) : List (String × String) :=
  if (m.find? (fun e => e.1 == k)).isSome then
    m.map (fun e => if e.1 == k then (k, v) else e)
  else m ++ [(k, v)]

/-- From `diff_editor.py`: `_read_file_content` — the file on disk, else
the `created_files` cache, else the empty string. -/
def _read_file_content (fs : FS) (full_path : List String) (filepath : String)
    (created_files : List (String × String)) : String :=
  match fsGet fs full_path with
  | some c => c
  | none =>
    match assocGet created_files filepath with
    | some c => c
    | none => ""

/-- State threaded through `apply_edits`: the filesystem, the
`created_files` cache and the accumulated `(filepath, success)` results. -/
structure ApplyState where
  fs : FS
  created : List (String × String)
  results : List (String × Bool)
  deriving Repr, DecidableEq

/-- The write-and-record step shared by the auto-apply and confirmed
branches of `apply_edits`. -/
def apply_edit_write (st : ApplyState) (full_path : List String)
    (filepath new_content : String) : ApplyState :=
  { fs := fsSet st.fs full_path new_content,
    created := assocSet st.created filepath new_content,
    results := st.results ++ [(filepath, true)] }

/-- One iteration of the `for edit in edits` loop of `apply_edits`. -/
def apply_edit_one (base_dir : List String) (auto_apply : Bool)
    (accepts : String → Bool) (st : ApplyState) (edit : EditOp) : ApplyState :=
  let filepath := edit.path
  if filepath == "" then
    { st with results := st.results ++ [("", false)] }
  else
    let full_path := resolve_segs (joinPath base_dir filepath)
    let old_content := _read_file_content st.fs full_path filepath st.created
    let new_content? : Option String :=
      if edit.type == "search_replace" then
        if edit.search == "" then none
        else apply_search_replace old_content edit.search edit.replace
      else if edit.type == "full_replace" then
        if pyStrip edit.content == "" then none else some edit.content
      else none
    match new_content? with
    | none => { st with results := st.results ++ [(filepath, false)] }
    | some new_content =>
      if old_content != "" && pyStrip old_content == pyStrip new_content then
        { st with results := st.results ++ [(filepath, true)] }
      else if auto_apply || accepts filepath then
        apply_edit_write st full_path filepath new_content
      else
        { st with results := st.results ++ [(filepath, false)] }

/-- From `diff_editor.py`: `apply_edits` — apply parsed edits in order.
Note that no path-containment validation happens anywhere in this
function: the target path is joined to `base_dir` and written as-is. -/
def apply_edits (edits : List EditOp) (base_dir : List String) (fs : FS)
    (created_files : List (String × String)) (auto_apply : Bool)
    (accepts : String → Bool) : ApplyState :=
  edits.foldl (apply_edit_one base_dir auto_apply accepts)
    { fs := fs, created := created_files, results := [] }

/-! ## chat.py — error diagnosis

`diagnose_test_error` inspects the current working directory through
`Path.is_file` / `Path.is_dir`; these are passed in as oracles `isFile`
and `isDir` over paths relative to the working directory. -/

/-- The structured diagnosis dict, with its initial values as defaults. -/
structure Diagnosis where
  error_type : String := "unknown"
  root_cause : String := ""
  affected_files : List String := []
  missing_module : String := ""
  import_chain : List String := []
  fix_guidance : String := ""
  is_local_import : Bool := false
  is_pip_package : Bool := false
  deriving Repr, DecidableEq

/-- The six prefixes recognized when scanning the traceback backwards. -/
def errorPrefixes : List String :=
  ["ModuleNotFoundError:", "ImportError:", "SyntaxError:",
   "IndentationError:", "NameError:", "AttributeError:"]

/-- Scan (already reversed) lines for the first stripped line starting with
a recognized error prefix. -/
def find_error_line : List String → String
  | [] => ""
  | l :: rest =>
    let sl := pyStrip l
    if errorPrefixes.any (fun p => strStartsWith sl p) then sl
    else find_error_line rest

/-- Pattern `ModuleNotFoundError: No module named ['\"](.+?)['\"]`. -/
def mnfe_pattern : RE :=
  RE.cat [RE.strLit "ModuleNotFoundError: No module named ", .chr isQuote,
    .grp 1 (RE.plusL (.chr notNL)), .chr isQuote]

/-- Pattern `(?:File "(.+?)".*line (\d+))|(?:^(\S+\.py):(\d+):)`
(MULTILINE): traceback locations. -/
def chat_file_pattern : RE :=
  .alt
    (RE.cat [RE.strLit "File \"", .grp 1 (RE.plusL (.chr notNL)),
      RE.strLit "\"", .star false (.chr notNL), RE.strLit "line ",
      .grp 2 (RE.plus (.chr isDigitChar))])
    (RE.cat [.bol, .grp 3 (RE.cat [RE.plus (.chr isNonSpace), RE.strLit ".py"]),
      RE.lit ':', .grp 4 (RE.plus (.chr isDigitChar)), RE.lit ':'])

/-- Pattern `ImportError: cannot import name ['\"](.+?)['\"] from ['\"](.+?)['\"]`. -/
def name_pattern : RE :=
  RE.cat [RE.strLit "ImportError: cannot import name ", .chr isQuote,
    .grp 1 (RE.plusL (.chr notNL)), .chr isQuote, RE.strLit " from ",
    .chr isQuote, .grp 2 (RE.plusL (.chr notNL)), .chr isQuote]

/-- Pattern `File "(.+?)".*line (\d+)`: per-line traceback location. -/
def syntax_line_pattern : RE :=
  RE.cat [RE.strLit "File \"", .grp 1 (RE.plusL (.chr notNL)), RE.strLit "\"",
    .star false (.chr notNL), RE.strLit "line ",
    .grp 2 (RE.plus (.chr isDigitChar))]

/-- Pattern
`AttributeError: (?:module |type object )?['\"]?(.+?)['\"]? has no attribute ['\"](.+?)['\"]`. -/
def attr_pattern : RE :=
  RE.cat [RE.strLit "AttributeError: ",
    RE.q01 (.alt (RE.strLit "module ") (RE.strLit "type object ")),
    RE.q01 (.chr isQuote), .grp 1 (RE.plusL (.chr notNL)), RE.q01 (.chr isQuote),
    RE.strLit " has no attribute ", .chr isQuote,
    .grp 2 (RE.plusL (.chr notNL)), .chr isQuote]

/-- Pattern `First list contains (\d+) additional elements`. -/
def additional_pattern : RE :=
  RE.cat [RE.strLit "First list contains ", .grp 1 (RE.plus (.chr isDigitChar)),
    RE.strLit " additional elements"]

/-- The class `[A-Z_]`. -/
def isEnvKeyChar (c : Char) : Bool :=
  ('A' ≤ c && c ≤ 'Z') || c == '_'

/-- Pattern `KeyError: ['\"]([A-Z_]{3,})['\"]`. -/
def env_pattern : RE :=
  RE.cat [RE.strLit "KeyError: ", .chr isQuote,
    .grp 1 (RE.cat [.chr isEnvKeyChar, .chr isEnvKeyChar, .chr isEnvKeyChar,
      .star false (.chr isEnvKeyChar)]),
    .chr isQuote]

/-- The conventional local-module basenames hardcoded in the source. -/
def local_module_names : List String :=
  ["models", "crawler", "app", "config", "utils", "helpers", "views",
   "routes", "schemas", "services", "database", "db", "api", "core",
   "common", "settings", "urls", "forms", "serializers", "tasks",
   "middleware", "decorators", "exceptions", "constants", "enums",
   "managers"]

/-- Prefixes that exclude a traceback path from the import chain. -/
def chain_excluded (fpath : String) : Bool :=
  strStartsWith fpath "C:\\Python" || strStartsWith fpath "/usr/lib"
    || strStartsWith fpath "<" || strStartsWith fpath "importlib"

/-- The `for m in file_pattern.finditer(error_output)` loop collecting the
traceback chain and affected files (`m.group(1) or m.group(3)`; a file is
added to `affected_files` only once). -/
def chain_go (subject : List Char) : List RMatch → List String → List String →
    List String × List String
  | [], chain, files => (chain, files)
  | m :: rest, chain, files =>
    let fpath :=
      match mGroup subject m 1 with
      | some s => s
      | none => (mGroup subject m 3).getD ""
    let lineno :=
      match mGroup subject m 2 with
      | some s => s
      | none => (mGroup subject m 4).getD ""
    if fpath != "" && !chain_excluded fpath then
      let files2 := if files.contains fpath then files else files ++ [fpath]
      chain_go subject rest (chain ++ [fpath ++ ":" ++ lineno]) files2
    else chain_go subject rest chain files

/-- Fix guidance when the module lives under `src/` only. -/
def mnfe_guidance_src (top_level missing : String) : String :=
  "The file exists at \x27src/" ++ top_level ++ ".py\x27 but is being " ++
  "imported as \x27" ++ missing ++ "\x27 (without the \x27src.\x27 prefix). " ++
  "FIXES (choose one):\n" ++
  "  1. Change the import in the IMPORTING file to " ++
  "\x27from src." ++ missing ++ " import ...\x27 — this is the best fix\n" ++
  "  2. Add a conftest.py that adds \x27src\x27 to sys.path\n" ++
  "  3. Add \x27src\x27 to sys.path at the top of the importing file\n" ++
  "DO NOT add \x27" ++ missing ++ "\x27 to requirements.txt — " ++
  "it is NOT a pip package.\n" ++
  "DO NOT modify requirements.txt at all for this error."

/-- Fix guidance when the module exists at the project root. -/
def mnfe_guidance_bare (top_level missing : String) : String :=
  "The file \x27" ++ top_level ++ ".py\x27 exists in the project root " ++
  "but Python can\x27t find it. The importing file may be " ++
  "running from a different directory. Check:\n" ++
  "  1. Is there a sys.path issue?\n" ++
  "  2. Does conftest.py add the project root to sys.path?\n" ++
  "  3. Does the project need a setup.py or pyproject.toml " ++
  "with package configuration?\n" ++
  "DO NOT add \x27" ++ missing ++ "\x27 to requirements.txt."

/-- Fix guidance when the module merely looks like a local name. -/
def mnfe_guidance_lookalike (missing : String) : String :=
  "Module \x27" ++ missing ++ "\x27 looks like a local module name but " ++
  "the file wasn\x27t found. Check:\n" ++
  "  1. Does the file need to be created?\n" ++
  "  2. Is the import path/spelling wrong?\n" ++
  "  3. Search the project for files that might match.\n" ++
  "DO NOT add \x27" ++ missing ++ "\x27 to requirements.txt unless you " ++
  "are CERTAIN it\x27s a third-party package listed on PyPI."

/-- The ModuleNotFoundError branch of `diagnose_test_error`. -/
def mnfe_branch (isFile isDir : String → Bool) (d : Diagnosis)
    (missing error_output : String) : Diagnosis :=
  let p := chain_go error_output.data (reFindIter chat_file_pattern error_output) [] []
  let d := { d with
    error_type := "missing_module"
    missing_module := missing
    import_chain := p.1
    affected_files := p.2 }
  let top_level := (splitCh '.' missing).headD ""
  let local_indicators : List Bool :=
    [isFile (top_level ++ ".py"),
     isDir top_level,
     isFile ("src/" ++ top_level ++ ".py"),
     isDir ("src/" ++ top_level),
     isFile ("lib/" ++ top_level ++ ".py"),
     isFile ("app/" ++ top_level ++ ".py"),
     local_module_names.contains top_level]
  if local_indicators.any id then
    let d := { d with
      is_local_import := true
      is_pip_package := false
      root_cause := "Module \x27" ++ missing ++ "\x27 exists as a local file but Python " ++
        "can\x27t find it. This is an IMPORT PATH issue, not a " ++
        "missing pip package." }
    let src_file := isFile ("src/" ++ top_level ++ ".py")
    let src_dir := isDir ("src/" ++ top_level)
    let bare_file := isFile (top_level ++ ".py")
    let bare_dir := isDir top_level
    if (src_file || src_dir) && !bare_file && !bare_dir then
      { d with fix_guidance := mnfe_guidance_src top_level missing }
    else if bare_file || bare_dir then
      { d with fix_guidance := mnfe_guidance_bare top_level missing }
    else
      { d with fix_guidance := mnfe_guidance_lookalike missing }
  else
    { d with
      is_local_import := false
      is_pip_package := true
      root_cause := "Module \x27" ++ missing ++ "\x27 appears to be a third-party package " ++
        "that\x27s not installed."
      fix_guidance := "Add \x27" ++ missing ++ "\x27 to requirements.txt with an appropriate " ++
        "version pin, then reinstall dependencies." }

/-- The `ImportError: cannot import name` branch. -/
def name_branch (isFile : String → Bool) (d : Diagnosis)
    (symbol module : String) : Diagnosis :=
  let d := { d with
    error_type := "missing_symbol"
    missing_module := module
    root_cause := "Module \x27" ++ module ++ "\x27 exists but doesn\x27t export \x27" ++
      symbol ++ "\x27. This could be a version mismatch (the symbol was added in " ++
      "a newer version or removed in the current one), or the " ++
      "symbol name is misspelled, or it\x27s defined in a different " ++
      "submodule."
    fix_guidance := "1. Use read_file to check the actual source of \x27" ++ module ++ "\x27 " ++
      "and see what it exports\n" ++
      "2. Check what version of \x27" ++ module ++ "\x27 provides \x27" ++ symbol ++ "\x27\n" ++
      "3. Update the version in requirements.txt if needed\n" ++
      "4. Or fix the import if the symbol name is wrong\n" ++
      "5. If \x27" ++ module ++ "\x27 is a local file, read it and check what " ++
      "names are defined in it" }
  let top_level := (splitCh '.' module).headD ""
  if isFile (top_level ++ ".py") || isFile ("src/" ++ top_level ++ ".py") then
    { d with
      is_local_import := true
      fix_guidance := d.fix_guidance ++
        "\n\nThis appears to be a LOCAL module. Read the file " ++
        "to check what\x27s actually defined in it before changing " ++
        "requirements.txt." }
  else d

/-- The per-line traceback scan used by the syntax/indentation branches. -/
def syntax_affected (lines : List String) : List String :=
  lines.filterMap (fun line =>
    if containsSub line "File \"" && containsSub line ".py\"" then
      match reSearch syntax_line_pattern line with
      | some m => some (mGroupD line.data m 1)
      | none => none
    else none)

/-- The shared-file-state guidance text. -/
def shared_state_guidance : String :=
  "1. Add data_file=None support to the class __init__:\n" ++
  "     def __init__(self, data_file=\x27tasks.json\x27):\n" ++
  "         self.data_file = data_file\n" ++
  "         self.tasks = []\n" ++
  "         if data_file: self.load_tasks()\n" ++
  "2. In every test, use setUp():\n" ++
  "     def setUp(self):\n" ++
  "         self.manager = TodoManager(data_file=None)\n" ++
  "3. In tearDown(), delete any leftover data files:\n" ++
  "     def tearDown(self):\n" ++
  "         if os.path.exists(\x27tasks.json\x27): os.remove(\x27tasks.json\x27)\n" ++
  "4. Delete the existing tasks.json from the project root right now.\n" ++
  "DO NOT change test assertions — fix the class and test setup instead."

/-- From `chat.py`: `diagnose_test_error`.  (The `attr_match` computed just
before the shared-file-state check in the source is pure and unused there;
it is recomputed where it is consumed.) -/
def diagnose_test_error (isFile isDir : String → Bool)
    (error_output : String) : Diagnosis :=
  let d : Diagnosis := {}
  let lines := splitNL (pyStrip error_output)
  let error_line := find_error_line lines.reverse
  if error_line == "" then d
  else
    match reSearch mnfe_pattern error_line with
    | some m => mnfe_branch isFile isDir d (mGroupD error_line.data m 1) error_output
    | none =>
    match reSearch name_pattern error_line with
    | some m =>
      name_branch isFile d (mGroupD error_line.data m 1) (mGroupD error_line.data m 2)
    | none =>
    if containsSub error_line "SyntaxError" then
      { d with
        error_type := "syntax_error"
        affected_files := syntax_affected lines
        root_cause := "Syntax error in source file: " ++ error_line
        fix_guidance :=
          "Read the file mentioned in the traceback and fix the syntax " ++
          "error. Use read_file to see the actual file content.\n" ++
          "Do NOT modify requirements.txt for syntax errors." }
    else if containsSub error_line "IndentationError" then
      { d with
        error_type := "indentation_error"
        affected_files := syntax_affected lines
        root_cause := "Indentation error: " ++ error_line
        fix_guidance :=
          "Read the file and fix the indentation. " ++
          "Do NOT modify requirements.txt for indentation errors." }
    else
      let additional := reSearch additional_pattern error_output
      if additional.isSome || containsSub error_output "First extra element" then
        let count :=
          match additional with
          | some m => mGroupD error_output.data m 1
          | none => "multiple"
        { d with
          error_type := "shared_file_state"
          root_cause :=
            "Tests are loading stale data from a persistent file (e.g. tasks.json). " ++
            "The list has " ++ count ++ " extra elements left over from previous test runs. " ++
            "Each test instantiates the class and it loads ALL prior data from disk."
          fix_guidance := shared_state_guidance }
      else if containsSub error_output "ConnectionRefusedError"
          || containsSub error_output "Connection refused" then
        { d with
          error_type := "connection_refused"
          root_cause :=
            "Test is connecting to a real server that isn\x27t running. " ++
            "Unit/integration tests must use the framework\x27s test client, not real HTTP."
          fix_guidance :=
            "Replace all requests.get/post(\x27http://localhost:...\x27) with:\n" ++
            "  Flask: client = app.test_client(); client.get(\x27/route\x27)\n" ++
            "  FastAPI: client = TestClient(app); client.get(\x27/route\x27)\n" ++
            "Remove any app.run() or server.listen() calls from test files." }
      else if ["IntegrityError", "UniqueViolation", "UNIQUE constraint failed",
               "duplicate key value violates", "NOT NULL constraint failed"].any
          (fun p => containsSub error_output p) then
        { d with
          error_type := "db_integrity_error"
          root_cause :=
            "Tests are sharing database state. A prior test left rows that violate " ++
            "a UNIQUE or NOT NULL constraint in the next test."
          fix_guidance :=
            "Add to setUp():  db.drop_all(); db.create_all()\n" ++
            "Add to tearDown(): db.session.remove(); db.drop_all()\n" ++
            "Use \x27sqlite:///:memory:\x27 as the test DB URI.\n" ++
            "For Django, use django.test.TestCase (auto-rollback per test)." }
      else if ["no such table", "relation does not exist", "Table doesn\x27t exist"].any
          (fun p => containsSub error_output p) then
        { d with
          error_type := "db_table_missing"
          root_cause :=
            "Test database tables were never created. " ++
            "db.create_all() must run inside the app context before any test."
          fix_guidance :=
            "In setUp(), after setting the test DB URI:\n" ++
            "  with app.app_context():\n" ++
            "      db.create_all()\n" ++
            "For FastAPI/SQLModel: SQLModel.metadata.create_all(engine)\n" ++
            "Ensure this runs BEFORE any test method that touches the DB." }
      else
        let env := reSearch env_pattern error_output
        if env.isSome && ["os.environ", "os.getenv", "environ[", "getenv("].any
            (fun p => containsSub error_output p) then
          let missing_key :=
            match env with
            | some m => mGroupD error_output.data m 1
            | none => ""
          { d with
            error_type := "missing_env_var"
            missing_module := missing_key
            root_cause :=
              "Environment variable \x27" ++ missing_key ++
              "\x27 is not set in the test environment."
            fix_guidance :=
              "In setUp() or conftest.py, set a safe test default:\n" ++
              "  os.environ[\x27" ++ missing_key ++ "\x27] = \x27test_value\x27\n" ++
              "Or use: @unittest.mock.patch.dict(os.environ, \x7b\x27" ++ missing_key ++
              "\x27: \x27test\x27\x7d)\n" ++
              "Never rely on a real .env file being present during automated tests." }
        else
          match reSearch attr_pattern error_line with
          | some m =>
            let obj := mGroupD error_line.data m 1
            let attr := mGroupD error_line.data m 2
            { d with
              error_type := "attribute_error"
              root_cause :=
                "\x27" ++ obj ++ "\x27 doesn\x27t have attribute \x27" ++ attr ++
                "\x27. This is usually a version mismatch or API change."
              fix_guidance :=
                "1. Check which version of the package provides \x27" ++ attr ++ "\x27\n" ++
                "2. Read the source file to see what\x27s available\n" ++
                "3. Update the version in requirements.txt if it\x27s a " ++
                "third-party package version issue" }
          | none => d

/-! ## project_context.py — data model

`ast.parse` is an external parser; it enters the model as an oracle
`astParse : String → Except String (List PyStmt)` whose error carries the
`SyntaxError` text.  `PyStmt` mirrors the module-level AST nodes the
analyzer inspects. -/

/-- Generic string-keyed dict lookup (Python `d.get(k)` / `k in d`). -/
def adictGet {α : Type} (m : List (String × α)) (k : String) : Option α :=
  (m.find? (fun e => e.1 == k)).map (fun e => e.2)

/-- Generic string-keyed dict insert-or-overwrite (`d[k] = v`). -/
def adictSet {α : Type} (m : List (String × α)) (k : String) (v : α) :
    List (String × α) :=
  if (m.find? (fun e => e.1 == k)).isSome then
    m.map (fun e => if e.1 == k then (k, v) else e)
  else m ++ [(k, v)]

/-- Python `"sep".join`. -/
def joinWith (sep : String) : List String → String
  | [] => ""
  | [x] => x
  | x :: rest => x ++ sep ++ joinWith sep rest

/-- The module-level Python statements `analyze_python` walks. -/
inductive PyStmt where
  | importS (names : List String) : PyStmt
  | importFromS (module : Option String) (names : List String) : PyStmt
  | functionDef (name : String) : PyStmt
  | asyncFunctionDef (name : String) : PyStmt
  | classDef (name : String) : PyStmt
  | other : PyStmt
  deriving Repr, DecidableEq

/-- From `project_context.py`: the per-file record. -/
structure FileInfo where
  path : String
  content : String
  size : Nat
  language : String
  imports : List String := []
  exports : List String := []
  references : List String := []
  errors : List String := []
  deriving Repr, DecidableEq

/-- An issue dict; `imp` models the `"import"` key (a Lean keyword) and is
`none` when the dict has no such key, likewise `other_file`. -/
structure Issue where
  type : String
  file : String
  message : String
  severity : String
  imp : Option String := none
  other_file : Option String := none
  deriving Repr, DecidableEq

/-- From `project_context.py`: the scanned project. -/
structure ProjectContext where
  base_dir : String
  files : List (String × FileInfo) := []
  issues : List Issue := []
  dependency_graph : List (String × List String) := []
  deriving Repr, DecidableEq

/-- The extension map of `detect_language`. -/
def language_ext_map : List (String × String) :=
  [(".py", "python"), (".js", "javascript"), (".jsx", "javascript"),
   (".mjs", "javascript"), (".ts", "typescript"), (".tsx", "typescript"),
   (".rs", "rust"), (".go", "go"), (".java", "java"), (".rb", "ruby"),
   (".html", "html"), (".htm", "html"), (".css", "css"), (".scss", "css"),
   (".json", "json"), (".yaml", "yaml"), (".yml", "yaml"), (".toml", "toml"),
   (".md", "markdown"), (".sql", "sql"), (".sh", "bash"), (".bash", "bash"),
   (".ps1", "powershell"), (".txt", "text")]

/-- From `project_context.py`: `detect_language`. -/
def detect_language (filepath : String) : String :=
  (adictGet language_ext_map (strLower (path_suffix filepath))).getD "unknown"

/-! ## project_context.py — language analyzers -/

/-- ASCII letter. -/
def isAsciiAlpha (c : Char) : Bool :=
  ('a' ≤ c && c ≤ 'z') || ('A' ≤ c && c ≤ 'Z')

/-- The class `[a-zA-Z0-9_/\\]` of the reference-path pattern. -/
def isRefPathChar (c : Char) : Bool :=
  isAsciiAlpha c || c.isDigit || c == '_' || c == '/' || c == '\\'

/-- Pattern `["\']([a-zA-Z0-9_/\\]+\.[a-zA-Z]+)["\']`: quoted file
references inside Python sources. -/
def ref_path_pattern : RE :=
  RE.cat [.chr isQuote,
    .grp 1 (RE.cat [RE.plus (.chr isRefPathChar), RE.lit '.',
      RE.plus (.chr isAsciiAlpha)]),
    .chr isQuote]

/-- The `ast.walk` effect of one statement on a `FileInfo`
(`analyze_python`'s match on node types). -/
def analyze_python_stmt (acc : FileInfo) : PyStmt → FileInfo
  | .importS names => { acc with imports := acc.imports ++ names }
  | .importFromS module names =>
    let m := module.getD ""
    let acc := if m != "" then { acc with imports := acc.imports ++ [m] } else acc
    { acc with imports := acc.imports ++
        names.map (fun n => if m != "" then m ++ "." ++ n else n) }
  | .functionDef n => { acc with exports := acc.exports ++ ["def " ++ n] }
  | .asyncFunctionDef n => { acc with exports := acc.exports ++ ["def " ++ n] }
  | .classDef n => { acc with exports := acc.exports ++ ["class " ++ n] }
  | .other => acc

/-- From `project_context.py`: `analyze_python` — parse failures are
appended to `info.errors`, successful parses fill `imports`/`exports` and
the quoted-path `references`. -/
def analyze_python (astParse : String → Except String (List PyStmt))
    (info : FileInfo) : FileInfo :=
  match astParse info.content with
  | .error e => { info with errors := info.errors ++ ["Syntax error: " ++ e] }
  | .ok stmts =>
    let info := stmts.foldl analyze_python_stmt info
    let refs := (reFindIter ref_path_pattern info.content).map
      (fun m => mGroupD info.content.data m 1)
    { info with references := refs }

/-- Pattern
`(?:import|require)\s*(?:\(?\s*['"]([^'"]+)['"]\s*\)?|.*?from\s*['"]([^'"]+)['"])`. -/
def js_import_pattern : RE :=
  RE.cat [.alt (RE.strLit "import") (RE.strLit "require"),
    .star false (.chr isPyWS),
    .alt
      (RE.cat [RE.q01 (RE.lit '('), .star false (.chr isPyWS), .chr isQuote,
        .grp 1 (RE.plus (.chr notQuote)), .chr isQuote,
        .star false (.chr isPyWS), RE.q01 (RE.lit ')')])
      (RE.cat [.star true (.chr notNL), RE.strLit "from",
        .star false (.chr isPyWS), .chr isQuote,
        .grp 2 (RE.plus (.chr notQuote)), .chr isQuote])]

/-- Pattern
`export\s+(?:default\s+)?(?:function|class|const|let|var|interface|type|enum)\s+(\w+)`. -/
def js_export_pattern : RE :=
  RE.cat [RE.strLit "export", RE.plus (.chr isPyWS),
    RE.q01 (RE.cat [RE.strLit "default", RE.plus (.chr isPyWS)]),
    .alt (RE.strLit "function") (.alt (RE.strLit "class")
      (.alt (RE.strLit "const") (.alt (RE.strLit "let")
      (.alt (RE.strLit "var") (.alt (RE.strLit "interface")
      (.alt (RE.strLit "type") (RE.strLit "enum"))))))),
    RE.plus (.chr isPyWS), .grp 1 (RE.plus (.chr isWordChar))]

/-- From `project_context.py`: `analyze_javascript`. -/
def analyze_javascript (info : FileInfo) : FileInfo :=
  let imports := (reFindIter js_import_pattern info.content).filterMap (fun m =>
    let module :=
      match mGroup info.content.data m 1 with
      | some s => s
      | none => (mGroup info.content.data m 2).getD ""
    if module != "" then some module else none)
  let exports := (reFindIter js_export_pattern info.content).map
    (fun m => mGroupD info.content.data m 1)
  { info with imports := info.imports ++ imports,
              exports := info.exports ++ exports }

/-- Pattern `use\s+([\w:]+)`. -/
def rust_use_pattern : RE :=
  RE.cat [RE.strLit "use", RE.plus (.chr isPyWS),
    .grp 1 (RE.plus (.chr (fun c => isWordChar c || c == ':')))]

/-- Pattern `pub\s+(?:fn|struct|enum|trait|type|mod|const|static)\s+(\w+)`. -/
def rust_pub_pattern : RE :=
  RE.cat [RE.strLit "pub", RE.plus (.chr isPyWS),
    .alt (RE.strLit "fn") (.alt (RE.strLit "struct") (.alt (RE.strLit "enum")
      (.alt (RE.strLit "trait") (.alt (RE.strLit "type")
      (.alt (RE.strLit "mod") (.alt (RE.strLit "const") (RE.strLit "static"))))))),
    RE.plus (.chr isPyWS), .grp 1 (RE.plus (.chr isWordChar))]

/-- Pattern `mod\s+(\w+)\s*;`. -/
def rust_mod_pattern : RE :=
  RE.cat [RE.strLit "mod", RE.plus (.chr isPyWS),
    .grp 1 (RE.plus (.chr isWordChar)), .star false (.chr isPyWS), RE.lit ';']

/-- From `project_context.py`: `analyze_rust`. -/
def analyze_rust (info : FileInfo) : FileInfo :=
  let imports := (reFindIter rust_use_pattern info.content).map
    (fun m => mGroupD info.content.data m 1)
  let exports := (reFindIter rust_pub_pattern info.content).map
    (fun m => mGroupD info.content.data m 1)
  let references := (reFindIter rust_mod_pattern info.content).map
    (fun m => mGroupD info.content.data m 1)
  { info with imports := info.imports ++ imports,
              exports := info.exports ++ exports,
              references := info.references ++ references }

/-- Pattern `import\s*\((.*?)\)` (DOTALL): a Go import block. -/
def go_block_pattern : RE :=
  RE.cat [RE.strLit "import", .star false (.chr isPyWS), RE.lit '(',
    .grp 1 (.star true (.chr anyChar)), RE.lit ')']

/-- Pattern `import\s+"([^"]+)"`. -/
def go_single_pattern : RE :=
  RE.cat [RE.strLit "import", RE.plus (.chr isPyWS), RE.lit '"',
    .grp 1 (RE.plus (.chr (fun c => c != '"'))), RE.lit '"']

/-- Pattern `(?:func|type|var|const)\s+([A-Z]\w+)`. -/
def go_export_pattern : RE :=
  RE.cat [.alt (RE.strLit "func") (.alt (RE.strLit "type")
      (.alt (RE.strLit "var") (RE.strLit "const"))),
    RE.plus (.chr isPyWS),
    .grp 1 (RE.cat [.chr (fun c => 'A' ≤ c && c ≤ 'Z'),
      RE.plus (.chr isWordChar)])]

/-- From `project_context.py`: `analyze_go`. -/
def analyze_go (info : FileInfo) : FileInfo :=
  let blockImports :=
    match reSearch go_block_pattern info.content with
    | some m =>
      (splitNL (mGroupD info.content.data m 1)).filterMap (fun line =>
        let l := pyStripChars (pyStrip line) ['"']
        if l != "" then some l else none)
    | none => []
  let singles := (reFindIter go_single_pattern info.content).map
    (fun m => mGroupD info.content.data m 1)
  let exports := (reFindIter go_export_pattern info.content).map
    (fun m => mGroupD info.content.data m 1)
  { info with imports := info.imports ++ blockImports ++ singles,
              exports := info.exports ++ exports }

/-! ## project_context.py — external-module knowledge -/

/-- From `project_context.py`: `PYTHON_STDLIB`. -/
def PYTHON_STDLIB : List String :=
  ["os", "sys", "re", "json", "math", "datetime", "pathlib",
   "typing", "collections", "functools", "itertools", "subprocess",
   "asyncio", "logging", "unittest", "dataclasses", "abc",
   "hashlib", "secrets", "uuid", "enum", "copy", "io",
   "contextlib", "time", "random", "string", "textwrap", "shutil",
   "tempfile", "glob", "argparse", "configparser", "sqlite3",
   "csv", "http", "urllib", "email", "html", "xml", "base64",
   "struct", "socket", "threading", "multiprocessing", "concurrent",
   "ast", "inspect", "traceback", "warnings", "pdb", "profile",
   "timeit", "cProfile", "pickle", "shelve", "marshal", "codecs",
   "locale", "gettext", "unicodedata", "decimal", "fractions",
   "operator", "array", "heapq", "bisect", "queue", "types",
   "weakref", "gc", "dis", "token", "tokenize", "pprint",
   "platform", "signal", "fnmatch", "stat", "binascii",
   "tomllib", "zipfile", "tarfile", "gzip", "bz2", "lzma",
   "zlib"]

/-- From `project_context.py`: `PYTHON_THIRD_PARTY`. -/
def PYTHON_THIRD_PARTY : List String :=
  ["flask", "django", "fastapi", "requests", "httpx", "aiohttp",
   "sqlalchemy", "pydantic", "celery", "redis", "pymongo",
   "psycopg2", "mysql", "boto3", "botocore", "numpy", "pandas",
   "scipy", "matplotlib", "sklearn", "torch", "tensorflow",
   "pytest", "nose", "mock", "faker", "factory",
   "rich", "click", "typer", "fire", "prompt_toolkit",
   "yaml", "toml", "dotenv", "decouple", "environ",
   "PIL", "cv2", "jinja2", "mako", "markupsafe",
   "werkzeug", "gunicorn", "uvicorn", "starlette",
   "marshmallow", "wtforms", "babel", "alembic",
   "setuptools", "pkg_resources", "pip", "wheel",
   "bs4", "beautifulsoup4", "scrapy", "selenium", "lxml",
   "cryptography", "jwt", "passlib", "bcrypt",
   "flask_sqlalchemy", "flask_migrate", "flask_cors",
   "flask_login", "flask_wtf", "flask_restful",
   "celery", "kombu", "amqp",
   "stripe", "twilio", "sendgrid",
   "pygments", "colorama", "termcolor",
   "tqdm", "alive_progress",
   "pillow", "imageio", "scikit_image"]

/-- From `project_context.py`: `_is_external_python`. -/
def _is_external_python (module : String) : Bool :=
  let top := (splitCh '.' module).headD ""
  let top_normalized := strReplaceAll top "-" "_"
  PYTHON_STDLIB.contains top || PYTHON_THIRD_PARTY.contains top
    || PYTHON_THIRD_PARTY.contains top_normalized

/-- The Go standard-library shortlist used by both
`is_local_import` and `validate_cross_references`. -/
def go_stdlib : List String :=
  ["fmt", "os", "io", "net", "log", "strings",
   "strconv", "errors", "context", "sync", "time",
   "math", "sort", "bytes", "bufio", "path",
   "filepath", "regexp", "encoding", "crypto",
   "database", "html", "mime", "testing"]

/-! ## project_context.py — import resolution -/

/-- The `for i in range(len(parts), 0, -1)` loop of
`resolve_python_import`: the counter is the current prefix length. -/
def rpi_go (files : List (String × FileInfo)) (parts : List String) :
    Nat → Option String
  | 0 => none
  | i + 1 =>
    let candidate := parts.take (i + 1)
    let module_path := joinWith "/" candidate
    let py_path := module_path ++ ".py"
    if (adictGet files py_path).isSome then some py_path
    else
      let init_path := module_path ++ "/__init__.py"
      if (adictGet files init_path).isSome then some init_path
      else
        let dir_prefix := module_path ++ "/"
        if files.any (fun f => strStartsWith f.1 dir_prefix) then some module_path
        else rpi_go files parts i

/-- From `project_context.py`: `resolve_python_import` — peel symbol
segments off the dotted path right-to-left. -/
def resolve_python_import (import_path : String)
    (files : List (String × FileInfo)) : Option String :=
  let parts := splitCh '.' import_path
  rpi_go files parts parts.length

/-- `str(Path(p).parent)` for a relative path. -/
def path_parent (p : String) : String :=
  let segs := splitCh '/' p
  if segs.length ≤ 1 then "." else joinWith "/" segs.dropLast

/-- `os.path.normpath` on segments: `.` and empty vanish, `..` pops unless
the head is already `..` (leading `..`s are kept for relative paths). -/
def normpath_segs (segs : List String) : List String :=
  segs.foldl (fun acc s =>
    if s == "" || s == "." then acc
    else if s == ".." then
      match acc.getLast? with
      | some l => if l == ".." then acc ++ [".."] else acc.dropLast
      | none => acc ++ [".."]
    else acc ++ [s]) []

/-- `os.path.normpath` for the relative paths produced here. -/
def normpath (p : String) : String :=
  let segs := normpath_segs (splitCh '/' p)
  if segs.isEmpty then "." else joinWith "/" segs

/-- The candidate-extension loop of `resolve_js_import`. -/
def js_ext_go (files : List (String × FileInfo)) (resolved : String) :
    List String → Option String
  | [] => none
  | ext :: rest =>
    let candidate := resolved ++ ext
    if (adictGet files candidate).isSome then some candidate
    else js_ext_go files resolved rest

/-- From `project_context.py`: `resolve_js_import`. -/
def resolve_js_import (import_path from_file : String)
    (files : List (String × FileInfo)) : Option String :=
  if !strStartsWith import_path "." then none
  else
    let from_dir := path_parent from_file
    let resolved := strReplaceAll (normpath (from_dir ++ "/" ++ import_path)) "\\" "/"
    js_ext_go files resolved
      ["", ".js", ".ts", ".jsx", ".tsx",
       "/index.js", "/index.ts", "/index.jsx", "/index.tsx"]

/-- The Rust candidate loop of `resolve_import`. -/
def rust_ext_go (files : List (String × FileInfo)) (rust_path : String) :
    List String → Option String
  | [] => none
  | ext :: rest =>
    let candidate := rust_path ++ ext
    if (adictGet files candidate).isSome then some candidate
    else rust_ext_go files rust_path rest

/-- From `project_context.py`: `resolve_import` — dispatch by the importing
file's language. -/
def resolve_import (import_path from_file : String) (ctx : ProjectContext) :
    Option String :=
  match adictGet ctx.files from_file with
  | none => none
  | some info =>
    if info.language == "python" then resolve_python_import import_path ctx.files
    else if info.language == "javascript" || info.language == "typescript" then
      resolve_js_import import_path from_file ctx.files
    else if info.language == "rust" then
      if strStartsWith import_path "crate::" then
        rust_ext_go ctx.files
          (strReplaceAll (strReplaceAll import_path "crate::" "src/") "::" "/")
          [".rs", "/mod.rs"]
      else none
    else if info.language == "go" then
      let local_path := (splitCh '/' import_path).getLastD ""
      (ctx.files.find? (fun f =>
        strEndsWith f.1 ".go" && containsSub f.1 local_path)).map (fun f => f.1)
    else none

/-- From `project_context.py`: `is_local_python_import` — checks what files
actually exist in the project. -/
def is_local_python_import (import_path : String)
    (files : List (String × FileInfo)) : Bool :=
  if _is_external_python import_path then false
  else if strStartsWith import_path "." then true
  else
    let top_level := (splitCh '.' import_path).headD ""
    (adictGet files (top_level ++ ".py")).isSome
      || (adictGet files (top_level ++ "/__init__.py")).isSome
      || files.any (fun f => strStartsWith f.1 (top_level ++ "/"))

/-- From `project_context.py`: `is_local_import`, dispatching by language. -/
def is_local_import (imp language : String)
    (files : List (String × FileInfo)) : Bool :=
  if language == "python" then is_local_python_import imp files
  else if language == "javascript" || language == "typescript" then
    strStartsWith imp "."
  else if language == "rust" then strStartsWith imp "crate::"
  else if language == "go" then !(containsSub imp "." || go_stdlib.contains imp)
  else false

/-- Per-file dependency list of `build_dependency_graph` (resolved imports,
deduplicated by the `seen` set, order preserved). -/
def bdg_imports (fpath : String) (imports : List String)
    (ctx : ProjectContext) : List String :=
  (imports.foldl (fun (acc : List String × List String) imp =>
    match resolve_import imp fpath ctx with
    | some r => if acc.2.contains r then acc else (acc.1 ++ [r], acc.2 ++ [r])
    | none => acc) ([], [])).1

/-- From `project_context.py`: `build_dependency_graph`. -/
def build_dependency_graph (ctx : ProjectContext) : List (String × List String) :=
  ctx.files.map (fun f => (f.1, bdg_imports f.1 f.2.imports ctx))

/-! ## project_context.py — orphan exclusions -/

/-- From `project_context.py`: `_NON_IMPORTABLE_FILES`. -/
def _NON_IMPORTABLE_FILES : List String :=
  [".gitignore", ".gitattributes", ".gitmodules",
   ".dockerignore", ".editorconfig", ".prettierrc",
   ".prettierignore", ".eslintrc", ".eslintrc.js",
   ".eslintrc.json", ".eslintignore", ".stylelintrc",
   ".babelrc", ".browserslistrc", ".npmrc", ".nvmrc",
   ".flake8", ".pylintrc", ".mypy.ini", ".coveragerc",
   ".env", ".env.example", ".env.local", ".env.development",
   ".env.production", ".env.test",
   "Dockerfile", "docker-compose.yml", "docker-compose.yaml",
   "Makefile", "Procfile", "Vagrantfile",
   "LICENSE", "LICENSE.md", "LICENSE.txt",
   "README.md", "README.rst", "README.txt", "README",
   "CHANGELOG.md", "CHANGELOG.txt", "CONTRIBUTING.md",
   "pytest.ini", "setup.cfg", "tox.ini",
   "pyproject.toml", "setup.py", "MANIFEST.in",
   "package-lock.json", "yarn.lock", "pnpm-lock.yaml",
   "Cargo.lock", "go.sum",
   "tsconfig.json", "jsconfig.json", "webpack.config.js",
   "vite.config.js", "vite.config.ts",
   "rollup.config.js", "postcss.config.js",
   "tailwind.config.js", "tailwind.config.ts",
   "jest.config.js", "jest.config.ts", "vitest.config.ts",
   "babel.config.js", "babel.config.json",
   "next.config.js", "next.config.mjs",
   "nuxt.config.js", "nuxt.config.ts",
   "svelte.config.js",
   "vercel.json", "netlify.toml", "fly.toml",
   "requirements.txt", "requirements-dev.txt",
   "constraints.txt",
   "Pipfile", "Pipfile.lock", "poetry.lock"]

/-- From `project_context.py`: `_ENTRY_POINT_EXACT`. -/
def _ENTRY_POINT_EXACT : List String :=
  ["main.py", "src/main.py", "app.py", "src/app.py",
   "index.js", "index.ts", "index.mjs",
   "src/index.js", "src/index.ts", "src/index.mjs",
   "manage.py", "wsgi.py", "asgi.py",
   "src/wsgi.py", "src/asgi.py",
   "main.go", "cmd/main.go",
   "main.rs", "src/main.rs", "src/lib.rs",
   "setup.py", "conftest.py",
   "cli.py", "src/cli.py",
   "server.py", "src/server.py",
   "run.py", "src/run.py",
   "worker.py", "src/worker.py",
   "bot.py", "src/bot.py"]

/-- From `project_context.py`: `_NON_IMPORTABLE_EXTENSIONS`. -/
def _NON_IMPORTABLE_EXTENSIONS : List String :=
  [".json", ".yaml", ".yml", ".toml", ".md", ".rst",
   ".txt", ".css", ".scss", ".sass", ".less",
   ".html", ".htm", ".svg", ".xml",
   ".sql", ".sh", ".bash", ".ps1", ".bat", ".cmd",
   ".env", ".cfg", ".ini", ".conf",
   ".lock", ".sum",
   ".png", ".jpg", ".jpeg", ".gif", ".ico", ".webp",
   ".woff", ".woff2", ".ttf", ".eot",
   ".map", ".min.js", ".min.css"]

/-- From `project_context.py`: `_is_orphan_candidate`. -/
def _is_orphan_candidate (fpath : String) : Bool :=
  let filename := path_name fpath
  let ext := strLower (path_suffix fpath)
  if strStartsWith filename "." then false
  else if _NON_IMPORTABLE_FILES.contains filename then false
  else if _NON_IMPORTABLE_EXTENSIONS.contains ext then false
  else if _ENTRY_POINT_EXACT.contains fpath then false
  else if ["conftest.py", "__init__.py", "__main__.py",
           "manage.py", "wsgi.py", "asgi.py"].contains filename then false
  else if strStartsWith fpath "test" || strStartsWith fpath "tests/"
      || containsSub fpath "/test_" || containsSub fpath "/tests/"
      || strStartsWith filename "test_"
      || strEndsWith filename "_test.py" || strEndsWith filename "_test.go"
      || strEndsWith filename ".test.js" || strEndsWith filename ".test.ts"
      || strEndsWith filename ".spec.js" || strEndsWith filename ".spec.ts" then
    false
  else if (splitCh '/' fpath).any (fun p =>
      ["templates", "static", "public", "assets", "media",
       "migrations", "fixtures", "seeds", "locales", "i18n"].contains p) then
    false
  else true

/-! ## project_context.py — circular import detection -/

/-- Ascending insertion into a sorted string list. -/
def insertStr (x : String) : List String → List String
  | [] => [x]
  | y :: rest => if x < y then x :: y :: rest else y :: insertStr x rest

/-- Python `sorted` on strings (the cycle key). -/
def sortStrs (xs : List String) : List String :=
  xs.foldr insertStr []

/-- The mutable state of the DFS in `detect_circular_imports`. -/
structure DfsState where
  visited : List String
  reported : List (List String)
  issues : List Issue
  deriving Repr, DecidableEq

/-- The recursive `dfs` of `detect_circular_imports`: `rec_stack` is passed
extended on the way down (its `pop()` is the return).  Bounded by fuel;
the top-level caller supplies more fuel than any DFS can consume because
every nested call permanently grows `visited`. -/
def dfs_go (graph : List (String × List String)) :
    Nat → String → List String → DfsState → DfsState
  | 0, _, _, st => st
  | fuel + 1, node, rec_stack, st =>
    let st := { st with visited := st.visited ++ [node] }
    let rec_stack := rec_stack ++ [node]
    let deps := (adictGet graph node).getD []
    deps.foldl (fun st dep =>
      if rec_stack.contains dep then
        let idx := rec_stack.findIdx (fun x => x == dep)
        let cycle := rec_stack.drop idx ++ [dep]
        let key := sortStrs cycle.dropLast
        if st.reported.contains key then st
        else
          { st with
            reported := st.reported ++ [key]
            issues := st.issues ++
              [{ type := "circular_import", file := node,
                 message := "Circular import: " ++ joinWith " → " cycle,
                 severity := "error" }] }
      else if st.visited.contains dep then st
      else dfs_go graph fuel dep rec_stack st) st

/-- From `project_context.py`: `detect_circular_imports` — one
error-severity issue per unique cycle, deduplicated by the sorted node
set. -/
def detect_circular_imports (ctx : ProjectContext) : List Issue :=
  let graph := ctx.dependency_graph
  (graph.foldl (fun (st : DfsState) node =>
    if st.visited.contains node.1 then st
    else dfs_go graph (2 * graph.length + 2) node.1 [] st)
    { visited := [], reported := [], issues := [] }).issues

/-! ## project_context.py — cross-reference validation -/

/-- The `for i in range(len(parts), 0, -1)` loop of
`_get_python_base_module`. -/
def gpbm_go (files : List (String × FileInfo)) (parts : List String) :
    Nat → Option String
  | 0 => none
  | i + 1 =>
    let candidate := parts.take (i + 1)
    let module_path := joinWith "/" candidate
    if (adictGet files (module_path ++ ".py")).isSome
        || (adictGet files (module_path ++ "/__init__.py")).isSome
        || files.any (fun f => strStartsWith f.1 (module_path ++ "/")) then
      some (joinWith "." candidate)
    else gpbm_go files parts i

/-- From `project_context.py`: `_get_python_base_module`. -/
def _get_python_base_module (import_path : String)
    (files : List (String × FileInfo)) : String :=
  let parts := splitCh '.' import_path
  (gpbm_go files parts parts.length).getD import_path

/-- The early `continue` conditions of the import loop in
`validate_cross_references` (external modules per language). -/
def vcr_skip_external (imp language : String) : Bool :=
  if language == "python" then _is_external_python imp
  else if language == "javascript" || language == "typescript" then
    !strStartsWith imp "."
  else if language == "go" then containsSub imp "." || go_stdlib.contains imp
  else if language == "rust" then
    strStartsWith imp "std::" || !containsSub imp "::"
  else false

/-- The `for imp in info.imports` loop of `validate_cross_references`:
threads `checked_modules` (per file) and `seen_issues` (global). -/
def vcr_import_loop (ctx : ProjectContext) (fpath language : String) :
    List String → List String → List (String × String) →
    List Issue × List (String × String)
  | [], _, seen => ([], seen)
  | imp :: rest, checked, seen =>
    if vcr_skip_external imp language then
      vcr_import_loop ctx fpath language rest checked seen
    else if !is_local_import imp language ctx.files then
      vcr_import_loop ctx fpath language rest checked seen
    else
      let dedup :=
        if language == "python" then
          let base := _get_python_base_module imp ctx.files
          if checked.contains base then none else some (checked ++ [base])
        else some checked
      match dedup with
      | none => vcr_import_loop ctx fpath language rest checked seen
      | some checked2 =>
        match resolve_import imp fpath ctx with
        | some _ => vcr_import_loop ctx fpath language rest checked2 seen
        | none =>
          if seen.contains (fpath, imp) then
            vcr_import_loop ctx fpath language rest checked2 seen
          else
            let r := vcr_import_loop ctx fpath language rest checked2
              (seen ++ [(fpath, imp)])
            ({ type := "missing_import", file := fpath,
               message := "`" ++ fpath ++ "` imports `" ++ imp ++
                 "` but no matching file found",
               severity := "error", imp := some imp } :: r.1, r.2)

/-- The outer file loop of the missing-import phase. -/
def vcr_files_loop (ctx : ProjectContext) :
    List (String × FileInfo) → List (String × String) → List Issue
  | [], _ => []
  | f :: rest, seen =>
    let r := vcr_import_loop ctx f.1 f.2.language f.2.imports [] seen
    r.1 ++ vcr_files_loop ctx rest r.2

/-- The orphan-file phase of `validate_cross_references`. -/
def orphan_issues (ctx : ProjectContext) : List Issue :=
  let all_deps := (ctx.dependency_graph.map (fun g => g.2)).flatten
  ctx.files.filterMap (fun f =>
    if all_deps.contains f.1 then none
    else if !_is_orphan_candidate f.1 then none
    else some { type := "orphan_file", file := f.1,
                message := "`" ++ f.1 ++ "` is not imported by any other file",
                severity := "warning" })

/-- Names whose duplication is expected and not reported. -/
def dup_common_names : List String :=
  ["main", "setup", "run", "start", "init",
   "create_app", "get", "post", "put", "delete",
   "index", "home", "health"]

/-- The `for exp in info.exports` loop of the duplicate-definition phase,
threading the `all_exports` dict. -/
def dup_exports_loop (fpath : String) :
    List String → List (String × String) → List Issue × List (String × String)
  | [], ae => ([], ae)
  | exp :: rest, ae =>
    let name := (pySplitWS exp).getLastD ""
    let emitted : Option Issue :=
      match adictGet ae name with
      | some prev =>
        if prev != fpath then
          if containsSub (strLower fpath) "test"
              || containsSub (strLower prev) "test"
              || strStartsWith name "_" then none
          else if dup_common_names.contains name then none
          else some { type := "duplicate_definition", file := fpath,
                      message := "`" ++ name ++ "` defined in both `" ++ fpath ++
                        "` and `" ++ prev ++ "`",
                      severity := "warning", other_file := some prev }
        else none
      | none => none
    let r := dup_exports_loop fpath rest (adictSet ae name fpath)
    (emitted.toList ++ r.1, r.2)

/-- The outer file loop of the duplicate-definition phase. -/
def dup_files_loop : List (String × FileInfo) → List (String × String) → List Issue
  | [], _ => []
  | f :: rest, ae =>
    let r := dup_exports_loop f.1 f.2.exports ae
    r.1 ++ dup_files_loop rest r.2

/-- From `project_context.py`: `validate_cross_references` — the single
issues list built by its three consecutive phases. -/
def validate_cross_references (ctx : ProjectContext) : List Issue :=
  vcr_files_loop ctx ctx.files []
    ++ orphan_issues ctx
    ++ dup_files_loop ctx.files []

/-! ## project_context.py — the scanner -/

/-- From `project_context.py`: `IGNORE_DIRS`. -/
def IGNORE_DIRS : List String :=
  [".git", ".venv", "venv", "node_modules", "__pycache__",
   ".mypy_cache", ".pytest_cache", ".tox", "dist", "build",
   ".egg-info", ".eggs", "target", "bin", "obj"]

/-- From `project_context.py`: `IGNORE_FILES`. -/
def IGNORE_FILES : List String :=
  [".DS_Store", "Thumbs.db", ".build_progress.json"]

/-- From `project_context.py`: `MAX_FILE_SIZE`. -/
def MAX_FILE_SIZE : Nat := 100000

/-- A filesystem entry seen by the `os.walk` loop: path relative to the
scanned root (with `/` separators), `stat` size, and the decoded content
(`none` models `PermissionError` or text that no attempted encoding could
decode). -/
structure FSEntry where
  rel_path : String
  size : Nat
  content : Option String
  deriving Repr, DecidableEq

/-- Whether the walk never presents this entry: a directory component in
`IGNORE_DIRS` (the `dirs[:]` pruning), a name in `IGNORE_FILES`, or an
`.aiignore` hit (the loaded patterns are the oracle `ignoreFn`). -/
def scan_entry_skip (ignoreFn : String → Bool) (e : FSEntry) : Bool :=
  (splitCh '/' e.rel_path).dropLast.any (fun d => IGNORE_DIRS.contains d)
    || IGNORE_FILES.contains (path_name e.rel_path)
    || ignoreFn e.rel_path

/-- The analyzer dispatch of the walk body. -/
def scan_analyze (astParse : String → Except String (List PyStmt))
    (language : String) (info : FileInfo) : FileInfo :=
  if language == "python" then analyze_python astParse info
  else if language == "javascript" || language == "typescript" then
    analyze_javascript info
  else if language == "rust" then analyze_rust info
  else if language == "go" then analyze_go info
  else info

/-- The `os.walk` loop of `scan_project`: builds `ctx.files` (dict,
insertion order, later duplicates overwrite) and the empty-file issues. -/
def scan_walk (astParse : String → Except String (List PyStmt))
    (ignoreFn : String → Bool) :
    List FSEntry → List (String × FileInfo) → List Issue →
    List (String × FileInfo) × List Issue
  | [], files, issues => (files, issues)
  | e :: rest, files, issues =>
    if scan_entry_skip ignoreFn e then scan_walk astParse ignoreFn rest files issues
    else if e.size > MAX_FILE_SIZE then scan_walk astParse ignoreFn rest files issues
    else if e.size == 0 then
      scan_walk astParse ignoreFn rest files (issues ++
        [{ type := "empty_file", file := e.rel_path,
           message := "File is empty: " ++ e.rel_path,
           severity := "warning" }])
    else
      match e.content with
      | none => scan_walk astParse ignoreFn rest files issues
      | some content =>
        let language := detect_language e.rel_path
        let info : FileInfo :=
          { path := e.rel_path, content := content, size := e.size,
            language := language }
        let info := scan_analyze astParse language info
        scan_walk astParse ignoreFn rest (adictSet files e.rel_path info) issues

/-- From `project_context.py`: `scan_project` — walk the tree, analyze
each file, build the dependency graph, then extend the issues with
`validate_cross_references`.  (`find_project_root` is interactive
root-detection UI; the model receives the chosen root and its entries.) -/
def scan_project (astParse : String → Except String (List PyStmt))
    (ignoreFn : String → Bool) (root : String) (entries : List FSEntry) :
    ProjectContext :=
  let w := scan_walk astParse ignoreFn entries [] []
  let ctx0 : ProjectContext := { base_dir := root, files := w.1, issues := w.2 }
  let ctx1 := { ctx0 with dependency_graph := build_dependency_graph ctx0 }
  { ctx1 with issues := ctx1.issues ++ validate_cross_references ctx1 }

/-! ## Concrete instances used by the claims -/

/-- Content of `main.py` in the two-file project of claim C4. -/
def c4_main_content : String := "from utils import helper\n"

/-- The `ast.parse` oracle for that project: `main.py` parses to the single
statement `from utils import helper` (an `ImportFrom` with module
`utils` and alias `helper`). -/
def c4_astParse : String → Except String (List PyStmt) := fun s =>
  if s == c4_main_content then .ok [.importFromS (some "utils") ["helper"]]
  else .error "invalid syntax"

/-- The two files on disk: `main.py` and a `README.md`; no `utils.py`
exists anywhere. -/
def c4_entries : List FSEntry :=
  [{ rel_path := "main.py", size := 25, content := some c4_main_content },
   { rel_path := "README.md", size := 7, content := some "# Demo\n" }]

/-- The scanned context of the C4 project (no `.aiignore` patterns). -/
def c4_ctx : ProjectContext :=
  scan_project c4_astParse (fun _ => false) "proj" c4_entries

/-- The model response of claim C3: one well-formed `<file>` tag and one
`<edit>` tag holding two SEARCH/REPLACE units; both paths need
normalization (`.\lib//util.py` and `./src//main.py`). -/
def c3_response : String :=
  "<file path=\".\\lib//util.py\">\nx = 1\n</file>\n" ++
  "<edit path=\"./src//main.py\">\n" ++
  "<<<<<<< SEARCH\na = 1\n=======\na = 2\n>>>>>>> REPLACE\n" ++
  "<<<<<<< SEARCH\nb = 1\n=======\nb = 2\n>>>>>>> REPLACE\n" ++
  "</edit>\n"

/-- The auto-fix response of claim C5: the LLM edits the dependency
manifest through a single `<edit path='requirements.txt'>` block and never
writes `<file`, so the outer guard of the safety check is skipped. -/
def c5_response : String :=
  "<edit path=\x27requirements.txt\x27>\n" ++
  "<<<<<<< SEARCH\nflask\n=======\nflask==2.0\n>>>>>>> REPLACE\n" ++
  "</edit>\n"

/-- The failure blob of claim C7: a plain unittest list-length-mismatch
assertion, with no line starting with one of the six recognized exception
prefixes. -/
def c7_blob : String :=
  "FAIL: test_list\n" ++
  "AssertionError: Lists differ: [1, 2] != [1]\n" ++
  "First list contains 3 additional elements."

/-- The dependency graph of claim C9 wrapped in a context. -/
def c9_ctx : ProjectContext :=
  { base_dir := "p", files := [],
    dependency_graph := [("A", ["B"]), ("B", ["C"]), ("C", ["A"])] }

/-- A parse oracle that always fails, for exercising the syntax-error path
of `analyze_python`. -/
def c10_badParse : String → Except String (List PyStmt) := fun _ => .error "boom"

/-- A concrete Python `FileInfo` before analysis. -/
def c10_info : FileInfo :=
  { path := "a.py", content := "x", size := 1, language := "python" }

/-- A one-entry project whose only file is empty. -/
def c10_entries : List FSEntry :=
  [{ rel_path := "empty.py", size := 0, content := some "" }]

/-- The issue that scanning `c10_entries` produces. -/
def c10_issue : Issue :=
  { type := "empty_file", file := "empty.py",
    message := "File is empty: empty.py", severity := "warning" }

/-- CLAIM C1: the fall-through for a multiply-occurring search block does not
return NotFound: strategy 2 (trailing-whitespace-normalized match) matches the
same ambiguous search text at its first occurrence and applies the edit.  On
the spec's own example — content `"x\nx\n"`, search `"x\n"` (two occurrences),
replace `"y"` — `apply_search_replace` returns `some "y\n"` instead of the
`none` the claim requires. -/
theorem C1_multi_occurrence_patch_applied :
    countSub "x\nx\n" "x\n" = 2 ∧
    apply_search_replace "x\nx\n" "x\n" "y" = some "y\n" := by
  exact ⟨rfl, rfl⟩

/-- CLAIM C2: `apply_edits` performs no path-containment check: a parsed
search/replace edit whose path is `"../escape.txt"` is read from and
written back to a location outside the resolved project root
(`/home/proj`), even though `validate_filepath` rejects exactly this path.
The operation modifies `/home/escape.txt` and reports success. -/
theorem C2_apply_edits_writes_outside_root :
    validate_filepath "../escape.txt" ["home", "proj"] = false ∧
    (["home", "proj"].isPrefixOf
      (resolve_segs (joinPath ["home", "proj"] "../escape.txt")) : Bool) = false ∧
    (apply_edits
      [{ type := "search_replace", path := "../escape.txt",
         search := "hello", replace := "goodbye" }]
      ["home", "proj"] [(["home", "escape.txt"], "hello world")] [] true
      (fun _ => false)).fs = [(["home", "escape.txt"], "goodbye world")] ∧
    (apply_edits
      [{ type := "search_replace", path := "../escape.txt",
         search := "hello", replace := "goodbye" }]
      ["home", "proj"] [(["home", "escape.txt"], "hello world")] [] true
      (fun _ => false)).results = [("../escape.txt", true)] := by
  exact ⟨rfl, rfl, rfl, rfl⟩

set_option maxRecDepth 40000 in
/-- CLAIM C3: parsing a response holding exactly one well-formed `<file>`
tag and one `<edit>` tag with two SEARCH/REPLACE units yields exactly one
full-content create (from `parse_files_from_response`) and exactly two
search/replace operations in unit order (from `parse_edit_blocks`), with
both paths normalized. -/
theorem C3_parse_one_create_two_edits :
    parse_files_from_response c3_response = .ok [("lib/util.py", "x = 1\n")] ∧
    parse_edit_blocks c3_response =
      [{ type := "search_replace", path := "src/main.py",
         search := "a = 1", replace := "a = 2" },
       { type := "search_replace", path := "src/main.py",
         search := "b = 1", replace := "b = 2" }] := by
  exact ⟨rfl, rfl⟩

set_option maxRecDepth 40000 in
/-- CLAIM C5: the dependency-manifest safety check of `auto_fix` requires
the substring `"<file"` before it strips anything, so a response that
edits `requirements.txt` through an `<edit>` tag alone passes the filter
unchanged and still parses to a search/replace operation targeting the
manifest. -/
theorem C5_manifest_edit_survives_filter :
    containsSub c5_response "requirements.txt" = true ∧
    containsSub (strLower c5_response) "<file" = false ∧
    auto_fix_manifest_filter true c5_response = c5_response ∧
    parse_edit_blocks c5_response =
      [{ type := "search_replace", path := "requirements.txt",
         search := "flask", replace := "flask==2.0" }] := by
  exact ⟨rfl, rfl, rfl, rfl⟩

/-- CLAIM C6: `clean_file_content` is not total: on any non-markdown file
whose first non-blank line starts with a code fence, the loop condition
`lines.strip()` is evaluated on a *list* and raises `AttributeError`
(modelled as `Except.error ()`), so `sanitize(sanitize(T)) = sanitize(T)`
fails to even evaluate on such `T`. -/
theorem C6_clean_file_content_raises_on_fence :
    clean_file_content "```python\nprint(1)\n```" "a.py" = .error () := by
  exact rfl

/-- CLAIM C7: a failure blob carrying the list-length-mismatch signature
`First list contains 3 additional elements.` but no line starting with a
recognized exception prefix is returned as `error_type = "unknown"` with
empty guidance — the shared-file-state branch is unreachable for plain
assertion output because `AssertionError:` is missing from the prefix
list. -/
theorem C7_assertion_blob_not_classified :
    (diagnose_test_error (fun _ => false) (fun _ => false) c7_blob).error_type
      = "unknown" ∧
    (diagnose_test_error (fun _ => false) (fun _ => false) c7_blob).fix_guidance
      = "" ∧
    (diagnose_test_error (fun _ => false) (fun _ => false) c7_blob).root_cause
      = "" := by
  exact ⟨rfl, rfl, rfl⟩

/-- CLAIM C9: on the dependency graph `{A:[B], B:[C], C:[A]}` the DFS
reports exactly one error-severity `circular_import` issue whose message
names all three nodes; the sorted-node-set key prevents the same cycle
from being reported again from another entry point. -/
theorem C9_one_issue_per_cycle :
    detect_circular_imports c9_ctx =
      [{ type := "circular_import", file := "C",
         message := "Circular import: A → B → C → A",
         severity := "error" }] ∧
    containsSub "Circular import: A → B → C → A" "A" = true ∧
    containsSub "Circular import: A → B → C → A" "B" = true ∧
    containsSub "Circular import: A → B → C → A" "C" = true := by
  exact ⟨rfl, rfl, rfl, rfl⟩

/-- CLAIM C4 (counterexample): scanning the two-file project where
`main.py` does `from utils import helper` and no `utils.py` exists
produces *zero* `missing_import` issues, not exactly one: `utils` does not
resolve to any project file, so `is_local_python_import` classifies it as
non-local and `validate_cross_references` skips it. -/
theorem C4_no_missing_import_issue :
    ((c4_ctx.issues.filter (fun i => i.type == "missing_import")).length == 1)
      = false ∧
    (c4_ctx.issues.filter (fun i => i.type == "missing_import")).length = 0 := by
  exact ⟨rfl, rfl⟩

/-- CLAIM C4 (amended): on that project the scan sees the import
(`imports = ["utils", "utils.helper"]` on `main.py`) yet emits no issue at
all — an absolute import whose top-level module matches no project file,
package or directory is treated as external rather than reported as
`missing_import`. -/
theorem C4_scan_reports_nothing :
    (adictGet c4_ctx.files "main.py").map (fun i => i.imports)
      = some ["utils", "utils.helper"] ∧
    c4_ctx.issues = [] := by
  exact ⟨rfl, rfl⟩

/-- Helper: the ModuleNotFoundError branch always sets the two booleans to
opposite values, so they are never both true. -/
theorem mnfe_branch_excl (isFile isDir : String → Bool) (d : Diagnosis)
    (missing error_output : String) :
    ((mnfe_branch isFile isDir d missing error_output).is_local_import &&
      (mnfe_branch isFile isDir d missing error_output).is_pip_package) = false := by
  unfold mnfe_branch
  dsimp only
  split
  · split
    · rfl
    · split <;> rfl
  · rfl

/-- Helper: the ImportError branch may set `is_local_import` but leaves
`is_pip_package` at its default `false`. -/
theorem name_branch_excl (isFile : String → Bool) (symbol module : String) :
    ((name_branch isFile {} symbol module).is_local_import &&
      (name_branch isFile {} symbol module).is_pip_package) = false := by
  unfold name_branch
  dsimp only
  split <;> rfl

/-- Helper: in every diagnosis, at most one of `is_local_import` and
`is_pip_package` is true. -/
theorem diagnose_excl (isFile isDir : String → Bool) (out : String) :
    ((diagnose_test_error isFile isDir out).is_local_import &&
      (diagnose_test_error isFile isDir out).is_pip_package) = false := by
  unfold diagnose_test_error
  dsimp only
  split
  · rfl
  · split
    · exact mnfe_branch_excl ..
    · split
      · exact name_branch_excl ..
      · split
        · rfl
        · split
          · rfl
          · split
            · rfl
            · split
              · rfl
              · split
                · rfl
                · split
                  · rfl
                  · split
                    · rfl
                    · split <;> rfl

/-- CLAIM C8: `ModuleNotFoundError: No module named 'requests'` with no
local file or directory named `requests` diagnoses as a pip package (and
not a local import); `ModuleNotFoundError: No module named 'src.utils'`
when `src/utils.py` exists diagnoses as a local import (and not a pip
package); and for every error output and filesystem at most one of the
two booleans is true. -/
theorem C8_local_vs_pip_classification :
    (diagnose_test_error (fun _ => false) (fun _ => false)
      "ModuleNotFoundError: No module named \x27requests\x27").is_pip_package
      = true ∧
    (diagnose_test_error (fun _ => false) (fun _ => false)
      "ModuleNotFoundError: No module named \x27requests\x27").is_local_import
      = false ∧
    (diagnose_test_error (fun p => p == "src/utils.py") (fun p => p == "src")
      "ModuleNotFoundError: No module named \x27src.utils\x27").is_local_import
      = true ∧
    (diagnose_test_error (fun p => p == "src/utils.py") (fun p => p == "src")
      "ModuleNotFoundError: No module named \x27src.utils\x27").is_pip_package
      = false ∧
    (∀ (isFile isDir : String → Bool) (out : String),
      ((diagnose_test_error isFile isDir out).is_local_import &&
        (diagnose_test_error isFile isDir out).is_pip_package) = false) := by
  exact ⟨rfl, rfl, rfl, rfl, diagnose_excl⟩

/-- Helper: every issue appended by the walk loop is an `empty_file`
issue. -/
theorem scan_walk_issue_types (p : String → Except String (List PyStmt))
    (ig : String → Bool) :
    ∀ (entries : List FSEntry) (files : List (String × FileInfo))
      (issues : List Issue) (x : Issue),
      x ∈ (scan_walk p ig entries files issues).2 →
      x ∈ issues ∨ x.type = "empty_file" := by
  intro entries
  induction entries with
  | nil => intro files issues x h; exact Or.inl h
  | cons e rest ih =>
    intro files issues x h
    unfold scan_walk at h
    dsimp only at h
    split at h
    · exact ih _ _ _ h
    · split at h
      · exact ih _ _ _ h
      · split at h
        · rcases ih _ _ _ h with h' | h'
          · rcases List.mem_append.1 h' with h2 | h2
            · exact Or.inl h2
            · simp only [List.mem_singleton] at h2
              subst h2
              exact Or.inr rfl
          · exact Or.inr h'
        · split at h
          · exact ih _ _ _ h
          · exact ih _ _ _ h

/-- Helper: every issue emitted by the import loop is a `missing_import`
issue. -/
theorem vcr_import_loop_types (ctx : ProjectContext) (fpath language : String) :
    ∀ (imports checked : List String) (seen : List (String × String)) (x : Issue),
      x ∈ (vcr_import_loop ctx fpath language imports checked seen).1 →
      x.type = "missing_import" := by
  intro imports
  induction imports with
  | nil => intro checked seen x h; simp [vcr_import_loop] at h
  | cons imp rest ih =>
    intro checked seen x h
    unfold vcr_import_loop at h
    dsimp only at h
    split at h
    · exact ih _ _ _ h
    · split at h
      · exact ih _ _ _ h
      · split at h
        · exact ih _ _ _ h
        · split at h
          · exact ih _ _ _ h
          · split at h
            · exact ih _ _ _ h
            · rcases List.mem_cons.1 h with h2 | h2
              · subst h2; rfl
              · exact ih _ _ _ h2

/-- Helper: the whole missing-import phase only emits `missing_import`
issues. -/
theorem vcr_files_loop_types (ctx : ProjectContext) :
    ∀ (files : List (String × FileInfo)) (seen : List (String × String)) (x : Issue),
      x ∈ vcr_files_loop ctx files seen → x.type = "missing_import" := by
  intro files
  induction files with
  | nil => intro seen x h; simp [vcr_files_loop] at h
  | cons f rest ih =>
    intro seen x h
    unfold vcr_files_loop at h
    rcases List.mem_append.1 h with h2 | h2
    · exact vcr_import_loop_types ctx f.1 f.2.language _ _ _ _ h2
    · exact ih _ _ h2

/-- Helper: the orphan phase only emits `orphan_file` issues. -/
theorem orphan_issues_types (ctx : ProjectContext) (x : Issue)
    (h : x ∈ orphan_issues ctx) : x.type = "orphan_file" := by
  unfold orphan_issues at h
  simp only [List.mem_filterMap] at h
  obtain ⟨a, -, hfa⟩ := h
  split at hfa
  · exact absurd hfa (by simp)
  · split at hfa
    · exact absurd hfa (by simp)
    · rw [Option.some_inj] at hfa
      subst hfa
      rfl

/-- Helper: the inner export loop of the duplicate phase only emits
`duplicate_definition` issues. -/
theorem dup_exports_loop_types (fpath : String) :
    ∀ (exports : List String) (ae : List (String × String)) (x : Issue),
      x ∈ (dup_exports_loop fpath exports ae).1 →
      x.type = "duplicate_definition" := by
  intro exports
  induction exports with
  | nil => intro ae x h; simp [dup_exports_loop] at h
  | cons exp rest ih =>
    intro ae x h
    unfold dup_exports_loop at h
    dsimp only at h
    rcases List.mem_append.1 h with h2 | h2
    · split at h2
      · split at h2
        · split at h2
          · simp at h2
          · split at h2
            · simp at h2
            · simp only [Option.toList_some, List.mem_singleton] at h2
              subst h2
              rfl
        · simp at h2
      · simp at h2
    · exact ih _ _ h2

/-- Helper: the outer file loop of the duplicate phase only emits
`duplicate_definition` issues. -/
theorem dup_files_loop_types :
    ∀ (files : List (String × FileInfo)) (ae : List (String × String)) (x : Issue),
      x ∈ dup_files_loop files ae → x.type = "duplicate_definition" := by
  intro files
  induction files with
  | nil => intro ae x h; simp [dup_files_loop] at h
  | cons f rest ih =>
    intro ae x h
    unfold dup_files_loop at h
    rcases List.mem_append.1 h with h2 | h2
    · exact dup_exports_loop_types f.1 _ _ _ h2
    · exact ih _ _ h2

/-- Helper: `validate_cross_references` only produces the three
cross-reference issue types. -/
theorem validate_cross_references_types (ctx : ProjectContext) (x : Issue)
    (h : x ∈ validate_cross_references ctx) :
    x.type = "missing_import" ∨ x.type = "orphan_file" ∨
      x.type = "duplicate_definition" := by
  unfold validate_cross_references at h
  rcases List.mem_append.1 h with h2 | h2
  · rcases List.mem_append.1 h2 with h3 | h3
    · exact Or.inl (vcr_files_loop_types ctx _ _ _ h3)
    · exact Or.inr (Or.inl (orphan_issues_types ctx _ h3))
  · exact Or.inr (Or.inr (dup_files_loop_types _ _ _ h2))

/-- CLAIM C10: every issue of a `ProjectContext` returned by
`scan_project` has one of the four types `empty_file`, `missing_import`,
`orphan_file`, `duplicate_definition` — in particular never
`circular_import` — and a per-file parse failure is recorded on the
`FileInfo.errors` list (not as an issue). -/
theorem C10_scan_issue_type_invariant :
    (∀ (astParse : String → Except String (List PyStmt))
       (ignoreFn : String → Bool) (root : String) (entries : List FSEntry)
       (issue : Issue),
       issue ∈ (scan_project astParse ignoreFn root entries).issues →
       issue.type ∈ (["empty_file", "missing_import", "orphan_file",
         "duplicate_definition"] : List String)) ∧
    (∀ (astParse : String → Except String (List PyStmt)) (info : FileInfo)
       (e : String), astParse info.content = .error e →
       analyze_python astParse info =
         { info with errors := info.errors ++ ["Syntax error: " ++ e] }) := by
  constructor
  · intro astParse ignoreFn root entries issue h
    unfold scan_project at h
    dsimp only at h
    rcases List.mem_append.1 h with h2 | h2
    · rcases scan_walk_issue_types astParse ignoreFn entries [] [] issue h2 with h3 | h3
      · simp at h3
      · simp [h3]
    · rcases validate_cross_references_types _ issue h2 with h3 | h3 | h3 <;> simp [h3]
  · intro astParse info e h
    unfold analyze_python
    rw [h]

/-- Witness for C10: the scan of a one-empty-file project yields an issue
whose type the invariant places among the four allowed types, and a
failing parse oracle puts a `Syntax error` entry on the `errors` list of
the analyzed `FileInfo`. -/
theorem C10_scan_issue_type_invariant_witness :
    c10_issue.type ∈ (["empty_file", "missing_import", "orphan_file",
      "duplicate_definition"] : List String) ∧
    analyze_python c10_badParse c10_info =
      { c10_info with errors := c10_info.errors ++ ["Syntax error: boom"] } := by
  constructor
  · exact C10_scan_issue_type_invariant.1 c10_badParse (fun _ => false) "p"
      c10_entries c10_issue (by decide)
  · exact C10_scan_issue_type_invariant.2 c10_badParse c10_info "boom" rfl
